import Mathlib

/-!
Authentication and session-token lifecycle of the media backend

A shallow embedding of `Backend/src/controllers/user.controller.js`,
`Backend/src/models/user.model.js`, `Backend/src/middlewares/auth.middleware.js`,
`Backend/src/utils/asyncHandler.js` and `Backend/src/utils/cloudinary.js`.

Conventions of the embedding

* The user collection is a list of documents in natural order; `findOne` and
  `findById` return the first match, an update touches the first match only.
* A handler is a function of the process environment, the clock (`Date.now()`,
  milliseconds), the salt bcrypt would draw, the collection and the request.
  It returns the value its promise settles with together with the collection
  it leaves behind: `Except.ok` is the response that was sent (for the
  middleware: `next()` with `req.user` attached), `Except.error e` is the
  rejection that `asyncHandler` forwards as `next(e)`.
* The libraries are idealised: a JSON web token is its payload together with
  the key that signed it (no forgery, no collision), a bcrypt digest is a salt
  together with the 72 bytes bcrypt reads of the password (no collision
  between passwords of which it reads different bytes).
* `String.prototype.toLowerCase` is a parameter, the class `CaseMapping`: the
  theorems hold for every case mapping, under the facts about it that they
  name.  Where a handler is evaluated on sample data, the mapping is that of
  Basic Latin and Latin-1.
-/

namespace Backend

/-! ## Values -/

/-- An ObjectId of the document store. -/
abbrev ObjectId := Nat

/-- The claim set of a signed token: what `jwt.sign` puts in the payload.  The
refresh token carries `_id` only, the access token the three profile fields as
well; `iat` and `exp` are in seconds. -/
structure Payload where
  _id : ObjectId
  email : Option String
  username : Option String
  fullName : Option String
  iat : Nat
  exp : Nat
deriving DecidableEq, Repr

/-- A token string as it travels in cookies, bodies and the store: either a
well-formed JSON web token, given by its payload and the key of its signature,
or any other text. -/
inductive Token where
  | jwt (payload : Payload) (key : String)
  | raw (text : String)
deriving DecidableEq, Repr

/-- What a handler throws: an `ApiError` (status code and message) or a plain
`Error` of a library, which has a message and no status code. -/
inductive Thrown where
  | apiError (statusCode : Nat) (message : String)
  | error (message : String)
deriving DecidableEq, Repr

/-- The field `message` of a thrown value. -/
def Thrown.message : Thrown → String
  | .apiError _ m => m
  | .error m => m

/-- The field `statusCode` of a thrown value, absent on a plain `Error`. -/
def Thrown.statusCode : Thrown → Option Nat
  | .apiError c _ => some c
  | .error _ => none

/-- The variables of `process.env` the code reads.  An unset variable and an
empty one are both falsy and are both written `""`; the two lifetimes are
given in seconds. -/
structure Env where
  ACCESS_TOKEN_SECRET : String
  ACCESS_TOKEN_EXPIRY : Nat
  REFRESH_TOKEN_SECRET : String
  REFRESH_TOKEN_EXPIRY : Nat
deriving DecidableEq, Repr

/-- A document of the `User` model (`userSchema`, with `timestamps: true`). -/
structure User where
  _id : ObjectId
  username : String
  email : String
  fullName : String
  avatar : String
  coverImage : Option String
  watchHistory : List ObjectId
  password : String
  refreshToken : Option Token
  createdAt : Nat
  updatedAt : Nat
deriving DecidableEq, Repr

/-- A document read with `.select("-password -refreshToken")`. -/
structure UserView where
  _id : ObjectId
  username : String
  email : String
  fullName : String
  avatar : String
  coverImage : Option String
  watchHistory : List ObjectId
  createdAt : Nat
  updatedAt : Nat
deriving DecidableEq, Repr

/-- The `users` collection. -/
abbrev Store := List User

/-! ## JavaScript primitives -/

/-- Truthiness of a string: every string but the empty one. -/
def truthyString (s : String) : Bool := s != ""

/-- Truthiness of a value that is `undefined` or a string. -/
def truthyOpt : Option String → Bool
  | none => false
  | some s => truthyString s

/-- Truthiness of a value that is `undefined` or a token string. -/
def truthyToken : Option Token → Bool
  | none => false
  | some (.raw s) => truthyString s
  | some (.jwt _ _) => true

/-- The operator `a || b` on token values. -/
def orToken (a b : Option Token) : Option Token :=
  if truthyToken a then a else b

/-- The expression `error?.message || fallback`. -/
def messageOr (e : Thrown) (fallback : String) : String :=
  if truthyString e.message then e.message else fallback

/-- The parts of a text between the occurrences of a separator, as
`String.prototype.split` gives them. -/
def splitOnChar (sep : Char) : List Char → List (List Char)
  | [] => [[]]
  | c :: cs =>
    if c = sep then [] :: splitOnChar sep cs
    else
      match splitOnChar sep cs with
      | [] => [[c]]
      | part :: parts => (c :: part) :: parts

/-! ## jsonwebtoken -/

/-- The clock of jsonwebtoken: `Math.floor(Date.now() / 1000)`. -/
def clockTimestamp (nowMs : Nat) : Nat := nowMs / 1000

/-- Library model of `jwt.sign(payload, secret, { expiresIn })`: throws on a
falsy secret, otherwise stamps `iat` and `exp = iat + expiresIn` and signs. -/
def jwtSign (_id : ObjectId) (email username fullName : Option String)
    (secret : String) (expiresIn : Nat) (nowMs : Nat) : Except Thrown Token :=
  if truthyString secret then
    .ok (.jwt { _id := _id, email := email, username := username, fullName := fullName,
                iat := clockTimestamp nowMs,
                exp := clockTimestamp nowMs + expiresIn } secret)
  else .error (.error "secretOrPrivateKey must have a value")

/-- Library model of `jwt.verify(token, secret)`: the checks in the order the
library makes them, each with its own message.  A text that is no token is
refused for being empty, for not having three parts between dots, or for parts
that do not decode. -/
def jwtVerify (token : Token) (secret : String) (nowMs : Nat) : Except Thrown Payload :=
  match token with
  | .raw text =>
    if !truthyString text then .error (.error "jwt must be provided")
    else if (splitOnChar '.' text.data).length != 3 then .error (.error "jwt malformed")
    else .error (.error "invalid token")
  | .jwt payload key =>
    if !truthyString secret then .error (.error "secret or public key must be provided")
    else if key != secret then .error (.error "invalid signature")
    else if clockTimestamp nowMs ≥ payload.exp then .error (.error "jwt expired")
    else .ok payload

/-! ## Token strings -/

/-- A number written in decimal digits. -/
def showNat (n : Nat) : List Char :=
  Nat.toDigits 10 n

/-- The number a text of decimal digits denotes. -/
def readNat (cs : List Char) : Option Nat :=
  if cs.isEmpty || !cs.all Char.isDigit then none
  else some (cs.foldl (fun n c => 10 * n + (c.toNat - 48)) 0)

/-- A text written as the code points of its characters, separated by commas. -/
def showText (s : String) : List Char :=
  List.intercalate [','] (s.data.map (fun c => showNat c.toNat))

/-- The characters a list of code points in decimal denotes. -/
def readCodes : List (List Char) → Option (List Char)
  | [] => some []
  | part :: parts =>
    match readNat part, readCodes parts with
    | some n, some cs => some (Char.ofNat n :: cs)
    | _, _ => none

/-- The text that `showText` wrote. -/
def readText (cs : List Char) : Option String :=
  if cs.isEmpty then some ""
  else (readCodes (splitOnChar ',' cs)).map String.mk

/-- An optional claim: `n` when absent, `s` and the text when present. -/
def showOptText : Option String → List Char
  | none => ['n']
  | some s => 's' :: showText s

/-- The optional claim that `showOptText` wrote. -/
def readOptText (cs : List Char) : Option (Option String) :=
  match cs with
  | ['n'] => some none
  | 's' :: rest => (readText rest).map some
  | _ => none

/-- The claims part of a token string: the six claims separated by `;`. -/
def showClaims (p : Payload) : List Char :=
  List.intercalate [';']
    [showNat p._id, showOptText p.email, showOptText p.username, showOptText p.fullName,
     showNat p.iat, showNat p.exp]

/-- The claims that `showClaims` wrote. -/
def readClaims (cs : List Char) : Option Payload :=
  match splitOnChar ';' cs with
  | [id, email, username, fullName, iat, exp] =>
    match readNat id, readOptText email, readOptText username, readOptText fullName,
          readNat iat, readNat exp with
    | some id, some email, some username, some fullName, some iat, some exp =>
      some { _id := id, email := email, username := username, fullName := fullName,
             iat := iat, exp := exp }
    | _, _, _, _, _, _ => none
  | _ => none

/-- The text of a token.  A JSON web token is three parts separated by dots, a
header, the claims and the signature; here the header is `jwt` and the
signature is the key.  Like the base64url text of a real token, this text has
no blank in it.  Any other token is its own text. -/
def Token.text : Token → String
  | .raw s => s
  | .jwt p key => String.mk ("jwt.".data ++ showClaims p ++ '.' :: showText key)

/-- The token that a text is: a JSON web token when the text has the three
parts of one and they decode, the bare text otherwise. -/
def tokenOfText (s : String) : Token :=
  match splitOnChar '.' s.data with
  | [header, claims, signature] =>
    if header = "jwt".data then
      match readClaims claims, readText signature with
      | some p, some key => .jwt p key
      | _, _ => .raw s
    else .raw s
  | _ => .raw s

/-! ## bcrypt -/

/-- The UTF-8 encoding of a string, as `String.toUTF8` gives it. -/
def utf8Bytes (s : String) : List UInt8 :=
  s.data.flatMap String.utf8EncodeChar

/-- The key bcrypt is given for a password: at most 72 bytes of its UTF-8
encoding, and the NUL that ends them. -/
def bcryptKey (data : String) : List UInt8 :=
  (utf8Bytes data).take 72 ++ [0]

/-- What bcrypt reads of a password: 72 bytes of the key, taken in a cycle.  A
password of 72 bytes or more is read up to its 72nd byte; a shorter one is
read, with its NUL, again and again. -/
def bcryptInput (data : String) : List UInt8 :=
  ((List.replicate 72 (bcryptKey data)).flatten).take 72

/-- The part of a digest that stands for the bytes hashed, one character for
each byte. -/
def digestText (bytes : List UInt8) : List Char :=
  bytes.map (fun b => Char.ofNat b.toNat)

/-- Library model of `bcrypt.hash(data, 10)` with the salt it drew: the digest
is the salt, a separator and the bytes bcrypt read.  Two passwords of which
bcrypt reads the same bytes have the same digest, any other two have different
ones. -/
def bcryptHash (data : String) (salt : Nat) : String :=
  String.mk (List.replicate salt '.' ++ '$' :: digestText (bcryptInput data))

/-- Library model of `bcrypt.compare(data, digest)` on two strings: true
exactly when the digest was made from the bytes bcrypt reads of `data`, false
on anything else. -/
def bcryptCompare (data digest : String) : Bool :=
  digest.data.dropWhile (· == '.') == '$' :: digestText (bcryptInput data)

/-! ## The collection -/

/-- The code points that `String.prototype.trim` strips: the white space and
the line terminators of ECMAScript. -/
def jsIsWhiteSpace (c : Char) : Bool :=
  c.toNat == 0x09 || c.toNat == 0x0A || c.toNat == 0x0B || c.toNat == 0x0C ||
  c.toNat == 0x0D || c.toNat == 0x20 || c.toNat == 0xA0 || c.toNat == 0x1680 ||
  (0x2000 ≤ c.toNat && c.toNat ≤ 0x200A) || c.toNat == 0x2028 || c.toNat == 0x2029 ||
  c.toNat == 0x202F || c.toNat == 0x205F || c.toNat == 0x3000 || c.toNat == 0xFEFF

/-- The method `String.prototype.trim`. -/
def jsTrim (s : String) : String :=
  String.mk ((s.data.dropWhile jsIsWhiteSpace).reverse.dropWhile jsIsWhiteSpace).reverse

/-- The case mapping of the JavaScript engine.  `String.prototype.toLowerCase`
follows the Unicode tables of the engine, which are not part of the
repository, so the method is a parameter of the embedding. -/
class CaseMapping where
  toLowerCase : String → String

/-- The method `String.prototype.toLowerCase`. -/
def jsToLowerCase [CaseMapping] (s : String) : String :=
  CaseMapping.toLowerCase s

/-- The capitals of Basic Latin and of Latin-1, by their code points: `A` to
`Z`, and `À` to `Þ` without the sign `×`. -/
def isCapital (c : Char) : Bool :=
  (65 ≤ c.toNat && c.toNat ≤ 90) || (192 ≤ c.toNat && c.toNat ≤ 222 && c.toNat != 215)

/-- The small letter of a capital of Basic Latin or Latin-1, which is 32 above
it; any other character is kept. -/
def lowerChar (c : Char) : Char :=
  if isCapital c then Char.ofNat (c.toNat + 32) else c

/-- The case mapping of the engine on text of Basic Latin and Latin-1, where it
maps character by character. -/
def latin1Lower (s : String) : String :=
  String.mk (s.data.map lowerChar)

/-- The sample data, which is text of Basic Latin and Latin-1, is evaluated
with `latin1Lower`. -/
instance latin1CaseMapping : CaseMapping where
  toLowerCase := latin1Lower

/-- Two characters that are equal or are one letter of Basic Latin or Latin-1
in its two cases. -/
def sameLetter (a b : Char) : Bool :=
  a == b ||
  (isCapital a && b.toNat == a.toNat + 32) ||
  (isCapital b && a.toNat == b.toNat + 32)

/-- Two texts of the same length that differ, position by position, at most in
the case of a letter of Basic Latin or Latin-1. -/
def sameLetters : List Char → List Char → Bool
  | [], [] => true
  | a :: u, b :: v => sameLetter a b && sameLetters u v
  | _, _ => false

/-- Query casting of the path `username` (`lowercase: true, trim: true`): the
setters of the schema run on the value of a filter; a falsy value passes
through. -/
def castUsername [CaseMapping] (v : String) : String :=
  if truthyString v then jsToLowerCase (jsTrim v) else v

/-- Query casting of the path `email` (`trim: true`; the option spelled
`lowecase` is not one the schema knows). -/
def castEmail (v : String) : String :=
  if truthyString v then jsTrim v else v

/-- The filter `{ $or: [{ username }, { email }] }` on one document.  An
`undefined` value matches no document, every document having both paths. -/
def matchesOr [CaseMapping] (username email : Option String) (d : User) : Bool :=
  (match username with
   | some v => castUsername v == d.username
   | none => false) ||
  (match email with
   | some v => castEmail v == d.email
   | none => false)

/-- The call `User.findOne({ $or: [{ username }, { email }] })`. -/
def findOne [CaseMapping] (db : Store) (username email : Option String) : Option User :=
  db.find? (matchesOr username email)

/-- The call `User.findById(id)`. -/
def findById (db : Store) (id : ObjectId) : Option User :=
  db.find? (fun d => d._id == id)

/-- An update of the one document with the given `_id` (the first in natural
order), as `updateOne` and `findByIdAndUpdate` do it. -/
def updateFirst (db : Store) (id : ObjectId) (f : User → User) : Store :=
  match db with
  | [] => []
  | d :: rest => if d._id == id then f d :: rest else d :: updateFirst rest id f

/-- The projection `.select("-password -refreshToken")`. -/
def selectPublic (d : User) : UserView :=
  { _id := d._id, username := d.username, email := d.email, fullName := d.fullName,
    avatar := d.avatar, coverImage := d.coverImage, watchHistory := d.watchHistory,
    createdAt := d.createdAt, updatedAt := d.updatedAt }

/-- The test `this.isModified("password")` on a document that was loaded as
`stored` and now reads `doc`: assigning a path the value it already has does
not mark it modified. -/
def isModifiedPassword (stored doc : User) : Bool :=
  doc.password != stored.password

/-- The hook `userSchema.pre("save")`: hash the password when it was modified,
skip otherwise. -/
def preSave (stored doc : User) (salt : Nat) : User :=
  if !isModifiedPassword stored doc then doc
  else { doc with password := bcryptHash doc.password salt }

/-- The call `doc.save({ validateBeforeSave: false })` on a document loaded as
`stored`: run the hook, then write the document back, with `updatedAt` set to
the clock, when any path was modified. -/
def save (db : Store) (stored doc : User) (salt nowMs : Nat) : Store :=
  let hooked := preSave stored doc salt
  if hooked = stored then db
  else updateFirst db stored._id (fun _ => { hooked with updatedAt := nowMs })

/-! ## Methods of the model -/

/-- The method `isPasswordCorrect`: `bcrypt.compare(password, this.password)`,
which rejects when `password` is `undefined`. -/
def isPasswordCorrect (user : User) (password : Option String) : Except Thrown Bool :=
  match password with
  | none => .error (.error "data and hash arguments required")
  | some p => .ok (bcryptCompare p user.password)

/-- The method `generateAccessToken`. -/
def generateAccessToken (env : Env) (nowMs : Nat) (user : User) : Except Thrown Token :=
  jwtSign user._id (some user.email) (some user.username) (some user.fullName)
    env.ACCESS_TOKEN_SECRET env.ACCESS_TOKEN_EXPIRY nowMs

/-- The method `generateRefreshToken`. -/
def generateRefreshToken (env : Env) (nowMs : Nat) (user : User) : Except Thrown Token :=
  jwtSign user._id none none none env.REFRESH_TOKEN_SECRET env.REFRESH_TOKEN_EXPIRY nowMs

/-! ## Responses -/

/-- The object `{ accessToken, refreshToken }` that
`generateAccessAndRefereshTokens` returns. -/
structure TokenPair where
  accessToken : Token
  refreshToken : Token
deriving DecidableEq, Repr

/-- Reading a property of that object by its key, as a destructuring pattern
does: a key the object does not have reads `undefined`. -/
def TokenPair.get (o : TokenPair) (key : String) : Option Token :=
  if key = "accessToken" then some o.accessToken
  else if key = "refreshToken" then some o.refreshToken
  else none

/-- A cookie set with `res.cookie(name, value, options)`. -/
structure Cookie where
  name : String
  value : Token
  httpOnly : Bool
  secure : Bool
deriving DecidableEq, Repr

/-- The call `res.cookie(name, value, { httpOnly: true, secure: true })`:
express writes `String(value)`, which is the text `undefined` for an
`undefined` value. -/
def setCookie (name : String) (value : Option Token) : Cookie :=
  { name := name,
    value := match value with
      | some t => t
      | none => .raw "undefined",
    httpOnly := true, secure := true }

/-- The `data` of a response envelope; a key whose value is `undefined` is left
out of the JSON text. -/
inductive Data where
  | empty
  | tokens (accessToken refreshToken : Option Token)
  | session (user : Option UserView) (accessToken refreshToken : Option Token)
  | user (user : UserView)
deriving DecidableEq, Repr

/-- The class `ApiResponse`. -/
structure ApiResponse where
  statusCode : Nat
  data : Data
  message : String
  success : Bool
deriving DecidableEq, Repr

/-- The constructor of `ApiResponse`. -/
def ApiResponse.new (statusCode : Nat) (data : Data) (message : String) : ApiResponse :=
  { statusCode := statusCode, data := data, message := message,
    success := decide (statusCode < 400) }

/-- What a handler sent: the status, the cookies set, the cookies cleared and
the JSON body. -/
structure Response where
  status : Nat
  cookies : List Cookie
  cleared : List String
  json : ApiResponse
deriving DecidableEq, Repr

/-- The value of the cookie `name` in a response, if it was set. -/
def Response.cookie (res : Response) (name : String) : Option Token :=
  (res.cookies.find? (fun c => c.name == name)).map (fun c => c.value)

/-! ## Requests -/

/-- The body of `POST /login`. -/
structure LoginBody where
  email : Option String
  username : Option String
  password : Option String
deriving DecidableEq, Repr

/-- The parts of a request that `refreshAccessToken` reads:
`req.cookies.refreshToken` and `req.body.refreshToken`. -/
structure RefreshRequest where
  cookieRefreshToken : Option Token
  bodyRefreshToken : Option Token
deriving DecidableEq, Repr

/-- A text with the first occurrence of a pattern removed, as
`String.prototype.replace(pattern, "")` does for a string pattern. -/
def removeFirst (pattern : List Char) : List Char → List Char
  | [] => []
  | c :: cs =>
    if pattern.isPrefixOf (c :: cs) then (c :: cs).drop pattern.length
    else c :: removeFirst pattern cs

/-- The call `.replace("Bearer ", "")` on the `Authorization` header: the first
`Bearer ` is removed, wherever it stands. -/
def replaceBearer (header : String) : String :=
  String.mk (removeFirst "Bearer ".data header.data)

/-- The token that the `Authorization` header carries once `Bearer ` is
removed. -/
def bearerToken (header : String) : Token :=
  tokenOfText (replaceBearer header)

/-- The parts of a request that `verifyJWT` reads: `req.cookies?.accessToken`
and `req.header("Authorization")`. -/
structure AuthRequest where
  cookieAccessToken : Option Token
  authorization : Option String
deriving DecidableEq, Repr

/-- The body of `POST /change-password`. -/
structure PasswordBody where
  oldPassword : Option String
  newPassword : Option String
deriving DecidableEq, Repr

/-- The body of `POST /register`. -/
structure RegisterBody where
  fullName : Option String
  email : Option String
  username : Option String
  password : Option String
deriving DecidableEq, Repr

/-- The object `req.files` as multer fills it: under each field the paths of
the files uploaded for it. -/
structure Files where
  avatar : Option (List String)
  coverImage : Option (List String)
deriving DecidableEq, Repr

/-- The parts of a request that `registerUser` reads. -/
structure RegisterRequest where
  body : RegisterBody
  files : Option Files
deriving DecidableEq, Repr

/-! ## Handlers -/

/-- The function `generateAccessAndRefereshTokens`: whatever is thrown inside
the `try` (a `null` user, a signing failure) leaves as the 500 error. -/
def generateAccessAndRefereshTokens (env : Env) (nowMs salt : Nat) (db : Store)
    (userId : ObjectId) : Except Thrown TokenPair × Store :=
  let failure := Thrown.apiError 500 "Something went wrong while generating refresh and access token"
  match findById db userId with
  | none => (.error failure, db)
  | some user =>
    match generateAccessToken env nowMs user with
    | .error _ => (.error failure, db)
    | .ok accessToken =>
      match generateRefreshToken env nowMs user with
      | .error _ => (.error failure, db)
      | .ok refreshToken =>
        (.ok { accessToken := accessToken, refreshToken := refreshToken },
         save db user { user with refreshToken := some refreshToken } salt nowMs)

/-- The handler `loginUser`. -/
def loginUser [CaseMapping] (env : Env) (nowMs salt : Nat) (db : Store) (body : LoginBody) :
    Except Thrown Response × Store :=
  if !truthyOpt body.username && !truthyOpt body.email then
    (.error (.apiError 400 "username or email is required"), db)
  else
    match findOne db body.username body.email with
    | none => (.error (.apiError 404 "User does not exist"), db)
    | some user =>
      match isPasswordCorrect user body.password with
      | .error e => (.error e, db)
      | .ok false => (.error (.apiError 401 "Invalid user credentials"), db)
      | .ok true =>
        match generateAccessAndRefereshTokens env nowMs salt db user._id with
        | (.error e, db1) => (.error e, db1)
        | (.ok pair, db1) =>
          let accessToken := pair.get "accessToken"
          let refreshToken := pair.get "refreshToken"
          let loggedInUser := (findById db1 user._id).map selectPublic
          (.ok { status := 200,
                 cookies := [setCookie "refreshToken" refreshToken,
                             setCookie "accessToken" accessToken],
                 cleared := [],
                 json := ApiResponse.new 200 (.session loggedInUser accessToken refreshToken)
                           "User logged In Successfully" },
           db1)

/-- The handler `logoutUser`, for the `req.user` that `verifyJWT` attached:
`findByIdAndUpdate` with `$unset: { refreshToken: 1 }`, which also stamps
`updatedAt`. -/
def logoutUser (nowMs : Nat) (db : Store) (reqUser : UserView) :
    Except Thrown Response × Store :=
  (.ok { status := 200,
         cookies := [],
         cleared := ["accessToken", "refreshToken"],
         json := ApiResponse.new 200 .empty "User logged Out" },
   updateFirst db reqUser._id (fun d => { d with refreshToken := none, updatedAt := nowMs }))

/-- The body of the `try` block of `refreshAccessToken`. -/
def refreshAttempt (env : Env) (nowMs salt : Nat) (db : Store)
    (incomingRefreshToken : Token) : Except Thrown Response × Store :=
  match jwtVerify incomingRefreshToken env.REFRESH_TOKEN_SECRET nowMs with
  | .error e => (.error e, db)
  | .ok decodedToken =>
    match findById db decodedToken._id with
    | none => (.error (.apiError 401 "Invalid refresh token"), db)
    | some user =>
      if some incomingRefreshToken != user.refreshToken then
        (.error (.apiError 401 "Refresh token is expired or used"), db)
      else
        match generateAccessAndRefereshTokens env nowMs salt db user._id with
        | (.error e, db1) => (.error e, db1)
        | (.ok pair, db1) =>
          let accessToken := pair.get "accessToken"
          let newRefreshToken := pair.get "newRefreshToken"
          (.ok { status := 200,
                 cookies := [setCookie "accessToken" accessToken,
                             setCookie "refreshToken" newRefreshToken],
                 cleared := [],
                 json := ApiResponse.new 200 (.tokens accessToken newRefreshToken)
                           "Access token refreshed" },
           db1)

/-- The handler `refreshAccessToken`: the guard on a missing token, then the
`try` block, whose every error the `catch` turns into a 401 with the message
of the error caught. -/
def refreshAccessToken (env : Env) (nowMs salt : Nat) (db : Store) (req : RefreshRequest) :
    Except Thrown Response × Store :=
  let incomingRefreshToken := orToken req.cookieRefreshToken req.bodyRefreshToken
  match incomingRefreshToken with
  | none => (.error (.apiError 401 "unauthorized request"), db)
  | some token =>
    if !truthyToken (some token) then (.error (.apiError 401 "unauthorized request"), db)
    else
      match refreshAttempt env nowMs salt db token with
      | (.ok res, db1) => (.ok res, db1)
      | (.error e, db1) => (.error (.apiError 401 (messageOr e "Invalid refresh token")), db1)

/-- The body of the `try` block of `verifyJWT`. -/
def verifyAttempt (env : Env) (nowMs : Nat) (db : Store) (req : AuthRequest) :
    Except Thrown UserView :=
  let token := orToken req.cookieAccessToken (req.authorization.map bearerToken)
  match token with
  | none => .error (.apiError 401 "Unauthorized request")
  | some t =>
    if !truthyToken (some t) then .error (.apiError 401 "Unauthorized request")
    else
      match jwtVerify t env.ACCESS_TOKEN_SECRET nowMs with
      | .error e => .error e
      | .ok decodedToken =>
        match findById db decodedToken._id with
        | none => .error (.apiError 401 "Invalid Access Token")
        | some user => .ok (selectPublic user)

/-- The middleware `verifyJWT`: `Except.ok user` is `req.user = user; next()`,
and the `catch` turns every error of the `try` block into a 401 with the
message of the error caught. -/
def verifyJWT (env : Env) (nowMs : Nat) (db : Store) (req : AuthRequest) :
    Except Thrown UserView × Store :=
  match verifyAttempt env nowMs db req with
  | .ok user => (.ok user, db)
  | .error e => (.error (.apiError 401 (messageOr e "Invalid access token")), db)

/-- The handler `changeCurrentPassword`, for the `req.user` that `verifyJWT`
attached.  A `null` user and an `undefined` password reject with the plain
error of the call that received them. -/
def changeCurrentPassword (nowMs salt : Nat) (db : Store) (reqUser : UserView)
    (body : PasswordBody) : Except Thrown Response × Store :=
  match findById db reqUser._id with
  | none => (.error (.error "Cannot read properties of null (reading 'isPasswordCorrect')"), db)
  | some user =>
    match isPasswordCorrect user body.oldPassword with
    | .error e => (.error e, db)
    | .ok false => (.error (.apiError 400 "Invalid old password"), db)
    | .ok true =>
      match body.newPassword with
      | none => (.error (.error "data and salt arguments required"), db)
      | some newPassword =>
        (.ok { status := 200,
               cookies := [],
               cleared := [],
               json := ApiResponse.new 200 .empty "Password changed successfully" },
         save db user { user with password := newPassword } salt nowMs)

/-- The test `field?.trim() === ""` of `registerUser`: an `undefined` field
gives `undefined`, which is not the empty string. -/
def isBlank : Option String → Bool
  | none => false
  | some s => jsTrim s == ""

/-- The expression `req.files?.avatar[0]?.path`: only `req.files` is guarded, so
a `files` object without the field `avatar` throws. -/
def avatarPath (files : Option Files) : Except Thrown (Option String) :=
  match files with
  | none => .ok none
  | some f =>
    match f.avatar with
    | none => .error (.error "Cannot read properties of undefined (reading '0')")
    | some [] => .ok none
    | some (path :: _) => .ok (some path)

/-- The variable `coverImageLocalPath`: set when `req.files.coverImage` is a
non-empty array. -/
def coverImagePath (files : Option Files) : Option String :=
  match files with
  | none => none
  | some f =>
    match f.coverImage with
    | some (path :: _) => some path
    | _ => none

/-- The function `uploadOnCloudinary`: `null` without a path, otherwise what the
file system and the hosting service `cloud` make of the path, the url of the
upload or nothing. -/
def uploadOnCloudinary (cloud : String → Option String) (localFilePath : Option String) :
    Option String :=
  match localFilePath with
  | none => none
  | some path => if !truthyString path then none else cloud path

/-- Casting of the path `fullName` (`trim: true`). -/
def castFullName (v : String) : String :=
  if truthyString v then jsTrim v else v

/-- What the `required` validator of a path adds to the message of a
`ValidationError`: nothing when the value is there, the path and the message
of the validator when it is absent or empty. -/
def requiredError (path message : String) (value : Option String) : List String :=
  if truthyOpt value then [] else [path ++ ": " ++ message]

/-- The message of the `ValidationError` of the model `User`: the paths that
failed, in the order of the schema, each with the message of its validator,
which is the default one except for `password`. -/
def validationMessage (username email fullName avatar password : Option String) : String :=
  "User validation failed: " ++ ", ".intercalate
    (requiredError "username" "Path `username` is required." username ++
     requiredError "email" "Path `email` is required." email ++
     requiredError "fullName" "Path `fullName` is required." fullName ++
     requiredError "avatar" "Path `avatar` is required." avatar ++
     requiredError "password" "Password is required" password)

/-- The call `User.create(...)` of `registerUser`: the setters of the schema,
the `required` validators, the pre-save hook on the new password, the unique
indexes, and the insert at the end of the collection with both timestamps set
to the clock.  `newId` is the ObjectId the driver generates. -/
def userCreate [CaseMapping] (db : Store) (newId : ObjectId) (salt nowMs : Nat)
    (fullName : Option String) (avatar coverImage : String)
    (email password : Option String) (username : String) : Except Thrown User × Store :=
  match fullName, email, password with
  | some fullName, some email, some password =>
    let username := castUsername username
    let email := castEmail email
    let fullName := castFullName fullName
    if !(truthyString username && truthyString email && truthyString fullName
          && truthyString avatar && truthyString password) then
      (.error (.error (validationMessage (some username) (some email) (some fullName)
        (some avatar) (some password))), db)
    else if db.any (fun d => d._id == newId || d.username == username || d.email == email) then
      (.error (.error "E11000 duplicate key error"), db)
    else
      let doc : User :=
        { _id := newId, username := username, email := email, fullName := fullName,
          avatar := avatar, coverImage := some coverImage, watchHistory := [],
          password := bcryptHash password salt, refreshToken := none,
          createdAt := nowMs, updatedAt := nowMs }
      (.ok doc, db ++ [doc])
  | _, _, _ =>
    (.error (.error (validationMessage (some (castUsername username)) (email.map castEmail)
      (fullName.map castFullName) (some avatar) password)), db)

/-- The handler `registerUser`. -/
def registerUser [CaseMapping] (cloud : String → Option String) (newId salt nowMs : Nat)
    (db : Store) (req : RegisterRequest) : Except Thrown Response × Store :=
  if [req.body.fullName, req.body.email, req.body.username, req.body.password].any isBlank then
    (.error (.apiError 400 "All fields are required"), db)
  else
    match findOne db req.body.username req.body.email with
    | some _ => (.error (.apiError 409 "User with email or username already exists"), db)
    | none =>
      match avatarPath req.files with
      | .error e => (.error e, db)
      | .ok avatarLocalPath =>
        let coverImageLocalPath := coverImagePath req.files
        if !truthyOpt avatarLocalPath then
          (.error (.apiError 400 "Avatar file is required"), db)
        else
          let avatar := uploadOnCloudinary cloud avatarLocalPath
          let coverImage := uploadOnCloudinary cloud coverImageLocalPath
          match avatar with
          | none => (.error (.apiError 400 "Avatar file is required"), db)
          | some avatarUrl =>
            match req.body.username with
            | none =>
              (.error (.error "Cannot read properties of undefined (reading 'toLowerCase')"),
               db)
            | some username =>
              match userCreate db newId salt nowMs req.body.fullName avatarUrl
                  (match coverImage with
                   | some url => if truthyString url then url else ""
                   | none => "")
                  req.body.email req.body.password (jsToLowerCase username) with
              | (.error e, db1) => (.error e, db1)
              | (.ok user, db1) =>
                match (findById db1 user._id).map selectPublic with
                | none =>
                  (.error (.apiError 500 "Something went wrong while registering the user"),
                   db1)
                | some createdUser =>
                  (.ok { status := 201,
                         cookies := [],
                         cleared := [],
                         json := ApiResponse.new 200 (.user createdUser)
                                   "User registered Successfully" },
                   db1)

/-- The wrapper `asyncHandler`, seen from the router: what its
`.catch((err) => next(err))` passes to `next`, which is the rejection of the
handler as it is, and nothing when the handler resolved. -/
def asyncHandler {α : Type} (settled : Except Thrown α × Store) : Option Thrown :=
  match settled.1 with
  | .ok _ => none
  | .error err => some err

/-! ## Sample data -/

/-- A configured environment: two distinct secrets, fifteen minutes and ten
days. -/
def sampleEnv : Env :=
  { ACCESS_TOKEN_SECRET := "access-secret", ACCESS_TOKEN_EXPIRY := 900,
    REFRESH_TOKEN_SECRET := "refresh-secret", REFRESH_TOKEN_EXPIRY := 864000 }

/-- A registered user whose password is `secret1`. -/
def alice : User :=
  { _id := 1, username := "alice", email := "alice@x.com", fullName := "Alice",
    avatar := "a.png", coverImage := none, watchHistory := [],
    password := bcryptHash "secret1" 3, refreshToken := none,
    createdAt := 1000, updatedAt := 1000 }

/-- A second registered user, whose password is `hunter2`. -/
def bob : User :=
  { _id := 2, username := "bob", email := "bob@x.com", fullName := "Bob",
    avatar := "b.png", coverImage := none, watchHistory := [],
    password := bcryptHash "hunter2" 5, refreshToken := none,
    createdAt := 2000, updatedAt := 2000 }

/-- The body with which alice logs in. -/
def aliceLogin : LoginBody :=
  { email := none, username := some "alice", password := some "secret1" }

/-- The session token a login of alice at 5000 ms (second 5) issues. -/
def sessionToken : Token :=
  .jwt { _id := 1, email := none, username := none, fullName := none,
         iat := 5, exp := 864005 } "refresh-secret"

/-- The collection after alice logged in at 5000 ms. -/
def aliceLoggedIn : Store :=
  [{ alice with refreshToken := some sessionToken, updatedAt := 5000 }]

/-- The session token a refresh of alice at 7400 ms (second 7) issues. -/
def rotatedToken : Token :=
  .jwt { _id := 1, email := none, username := none, fullName := none,
         iat := 7, exp := 864007 } "refresh-secret"

/-- The collection after that refresh. -/
def aliceRotated : Store :=
  [{ alice with refreshToken := some rotatedToken, updatedAt := 7400 }]

/-- A login body that names alice by username and bob by email, with the
password of alice. -/
def mixedLoginAlice : LoginBody :=
  { email := some "bob@x.com", username := some "alice", password := some "secret1" }

/-- A login body that names alice by username and bob by email, with the
password of bob. -/
def mixedLoginBob : LoginBody :=
  { email := some "bob@x.com", username := some "alice", password := some "hunter2" }

/-- A login body that names alice and carries no password. -/
def loginNoPassword : LoginBody :=
  { email := none, username := some "alice", password := none }

/-- A login body that names nobody registered and carries no password. -/
def loginUnknownNoPassword : LoginBody :=
  { email := none, username := some "carol", password := none }

/-- A login body with a wrong password for alice. -/
def aliceWrongLogin : LoginBody :=
  { email := none, username := some "alice", password := some "wrong" }

/-- A login body that names nobody registered. -/
def carolLogin : LoginBody :=
  { email := none, username := some "carol", password := some "secret1" }

/-- A session token of alice whose expiry is second 9. -/
def shortToken : Token :=
  .jwt { _id := 1, email := none, username := none, fullName := none,
         iat := 5, exp := 9 } "refresh-secret"

/-- A collection in which alice holds `shortToken`. -/
def aliceShort : Store :=
  [{ alice with refreshToken := some shortToken, updatedAt := 5000 }]

/-- The access token a login of alice at 5000 ms issues. -/
def aliceAccess : Token :=
  .jwt { _id := 1, email := some "alice@x.com", username := some "alice",
         fullName := some "Alice", iat := 5, exp := 905 } "access-secret"

/-- That token with a signature made with another key. -/
def forgedAccess : Token :=
  .jwt { _id := 1, email := some "alice@x.com", username := some "alice",
         fullName := some "Alice", iat := 5, exp := 905 } "guess"

/-- A request with no cookie whose header is `Bearer ` followed by the token. -/
def bearerRequest (t : Token) : AuthRequest :=
  { cookieAccessToken := none, authorization := some ("Bearer " ++ t.text) }

/-- A refresh request with the token in the cookie. -/
def cookieRefresh (t : Token) : RefreshRequest :=
  { cookieRefreshToken := some t, bodyRefreshToken := none }

/-- The record of alice while she is logged in. -/
def aliceActive : User :=
  { alice with refreshToken := some sessionToken, updatedAt := 5000 }

/-- A change of password whose new password is, character for character, the
digest stored for alice. -/
def digestAsPassword : PasswordBody :=
  { oldPassword := some "secret1", newPassword := some alice.password }

/-- The change of password from `secret1` to `secret2`. -/
def toSecret2 : PasswordBody :=
  { oldPassword := some "secret1", newPassword := some "secret2" }

/-- A change of password with a wrong old password. -/
def wrongOld : PasswordBody :=
  { oldPassword := some "guess", newPassword := some "secret2" }

/-- An environment whose access secret is not set. -/
def noAccessSecretEnv : Env :=
  { ACCESS_TOKEN_SECRET := "", ACCESS_TOKEN_EXPIRY := 900,
    REFRESH_TOKEN_SECRET := "refresh-secret", REFRESH_TOKEN_EXPIRY := 864000 }

/-- A hosting service that stores every file under its path. -/
def sampleCloud : String → Option String :=
  fun path => some ("https://cdn.example/" ++ path)

/-- The files of a registration with an avatar and no cover image. -/
def avatarOnly : Option Files :=
  some { avatar := some ["public/temp/carol.png"], coverImage := none }

/-- The registration of carol, her username in capitals. -/
def carolRegistration : RegisterRequest :=
  { body := { fullName := some "Carol", email := some "carol@x.com",
              username := some "Carol", password := some "pass3" },
    files := avatarOnly }

/-- A registration whose body has no username. -/
def registrationNoUsername : RegisterRequest :=
  { body := { fullName := some "Carol", email := some "carol@x.com",
              username := none, password := some "pass3" },
    files := avatarOnly }

/-- A registration whose body has no password. -/
def registrationNoPassword : RegisterRequest :=
  { body := { fullName := some "Carol", email := some "carol@x.com",
              username := some "Carol", password := none },
    files := avatarOnly }

/-- A registration whose full name is blank. -/
def registrationBlankName : RegisterRequest :=
  { body := { fullName := some "   ", email := some "carol@x.com",
              username := some "Carol", password := some "pass3" },
    files := avatarOnly }

/-- A registration whose full name is a form feed. -/
def registrationFormFeedName : RegisterRequest :=
  { body := { fullName := some (String.mk [Char.ofNat 12]), email := some "carol@x.com",
              username := some "Carol", password := some "pass3" },
    files := avatarOnly }

/-- The username `éric`. -/
def ericName : String :=
  String.mk [Char.ofNat 233, 'r', 'i', 'c']

/-- The same in capitals, `ÉRIC`. -/
def ericCapitals : String :=
  String.mk [Char.ofNat 201, 'R', 'I', 'C']

/-- A registered user whose username has a letter of Latin-1. -/
def eric : User :=
  { _id := 6, username := ericName, email := "eric@x.com", fullName := "Eric",
    avatar := "e.png", coverImage := none, watchHistory := [],
    password := bcryptHash "secret6" 2, refreshToken := none,
    createdAt := 6000, updatedAt := 6000 }

/-- The username of alice with a form feed after it and a no-break space
before it. -/
def alicePadded : String :=
  String.mk (Char.ofNat 160 :: "alice".data ++ [Char.ofNat 12])

/-- A password of 72 letters `a` and a last letter `X`. -/
def longOld : String :=
  String.mk (List.replicate 72 'a' ++ ['X'])

/-- The same 72 letters `a` and a last letter `Y`. -/
def longNew : String :=
  String.mk (List.replicate 72 'a' ++ ['Y'])

/-- A registered user whose password is `longOld`. -/
def dave : User :=
  { _id := 4, username := "dave", email := "dave@x.com", fullName := "Dave",
    avatar := "d.png", coverImage := none, watchHistory := [],
    password := bcryptHash longOld 2, refreshToken := none,
    createdAt := 4000, updatedAt := 4000 }

/-- The change of password from `longOld` to `longNew`. -/
def longChange : PasswordBody :=
  { oldPassword := some longOld, newPassword := some longNew }

/-- A short password. -/
def shortOld : String :=
  "ab"

/-- The password that repeats `shortOld` after a NUL: bcrypt reads the same
bytes of both. -/
def shortNew : String :=
  String.mk ['a', 'b', Char.ofNat 0, 'a', 'b']

/-- A registered user whose password is `shortOld`. -/
def erin : User :=
  { _id := 5, username := "erin", email := "erin@x.com", fullName := "Erin",
    avatar := "e.png", coverImage := none, watchHistory := [],
    password := bcryptHash shortOld 2, refreshToken := none,
    createdAt := 5000, updatedAt := 5000 }

/-- The change of password from `shortOld` to `shortNew`. -/
def cycleChange : PasswordBody :=
  { oldPassword := some shortOld, newPassword := some shortNew }

/-- An `Authorization` header in which `Bearer ` stands inside the text of the
access token of alice, after its first part. -/
def bearerInside : String :=
  String.mk ("jwt.Bearer ".data ++ aliceAccess.text.data.drop 4)

/-! ## Facts about the primitives -/

theorem truthyString_eq_true {s : String} : truthyString s = true ↔ s ≠ "" := by
  simp [truthyString]

theorem truthyString_eq_false {s : String} : truthyString s = false ↔ s = "" := by
  simp [truthyString]

theorem dropWhile_dots (n : Nat) (rest : List Char) :
    (List.replicate n '.' ++ '$' :: rest).dropWhile (· == '.') = '$' :: rest := by
  induction n with
  | zero => simp [List.dropWhile]
  | succ k ih => simp [List.replicate_succ, List.dropWhile, ih]

theorem toNat_ofNat_byte (n : Nat) (h : n < 256) : (Char.ofNat n).toNat = n := by
  have hv : n.isValidChar := Or.inl (by omega)
  simp only [Char.ofNat, hv, dite_true, Char.ofNatAux, Char.toNat]
  simp [UInt32.toNat]

theorem digestText_injective : Function.Injective digestText := by
  apply List.map_injective_iff.mpr
  intro a b hab
  have h := congrArg Char.toNat hab
  simp only at h
  rw [toNat_ofNat_byte _ a.toNat_lt, toNat_ofNat_byte _ b.toNat_lt] at h
  exact UInt8.ext h

theorem bcryptCompare_bcryptHash (data other : String) (salt : Nat) :
    bcryptCompare other (bcryptHash data salt)
      = decide (bcryptInput other = bcryptInput data) := by
  unfold bcryptCompare bcryptHash
  rw [dropWhile_dots]
  by_cases h : bcryptInput other = bcryptInput data
  · simp [h]
  · have hd : ¬ digestText (bcryptInput data) = digestText (bcryptInput other) :=
      fun hh => h (digestText_injective hh).symm
    simp [h, hd]

theorem bcryptCompare_self (data : String) (salt : Nat) :
    bcryptCompare data (bcryptHash data salt) = true := by
  simp [bcryptCompare_bcryptHash]

theorem takeWhile_cycle (k : List UInt8) (hlen : k.length ≤ 72)
    (hne : ∀ b ∈ k, (b != 0) = true) :
    (((List.replicate 72 (k ++ [0])).flatten).take 72).takeWhile (· != 0) = k := by
  have h1 : (List.replicate 72 (k ++ [0])).flatten
      = k ++ 0 :: (List.replicate 71 (k ++ [0])).flatten := by
    rw [show (72 : Nat) = 71 + 1 from rfl, List.replicate_succ, List.flatten_cons]
    simp
  rw [h1, List.take_append_eq_append_take, List.take_of_length_le hlen,
    List.takeWhile_append_of_pos hne]
  cases 72 - k.length with
  | zero => simp
  | succ m => simp

theorem bcryptInput_takeWhile (data : String) (h0 : (0 : UInt8) ∉ utf8Bytes data) :
    (bcryptInput data).takeWhile (· != 0) = (utf8Bytes data).take 72 := by
  apply takeWhile_cycle _ (List.length_take_le _ _)
  intro b hb
  have : b ∈ utf8Bytes data := List.mem_of_mem_take hb
  simp only [bne_iff_ne, ne_eq]
  rintro rfl
  exact h0 this

theorem take_eq_of_bcryptInput_eq {a b : String} (ha : (0 : UInt8) ∉ utf8Bytes a)
    (hb : (0 : UInt8) ∉ utf8Bytes b) (h : bcryptInput a = bcryptInput b) :
    (utf8Bytes a).take 72 = (utf8Bytes b).take 72 := by
  rw [← bcryptInput_takeWhile a ha, ← bcryptInput_takeWhile b hb, h]

/-! ## Facts about the collection -/

theorem findById_id {db : Store} {id : ObjectId} {u : User}
    (h : findById db id = some u) : u._id = id := by
  have := List.find?_some h
  simpa using this

theorem findById_mem {db : Store} {id : ObjectId} {u : User}
    (h : findById db id = some u) : u ∈ db :=
  List.mem_of_find?_eq_some h

theorem findOne_mem [CaseMapping] {db : Store} {username email : Option String} {u : User}
    (h : findOne db username email = some u) : u ∈ db :=
  List.mem_of_find?_eq_some h

theorem findOne_matches [CaseMapping] {db : Store} {username email : Option String} {u : User}
    (h : findOne db username email = some u) : matchesOr username email u = true :=
  List.find?_some h

theorem findById_cons (d : User) (rest : Store) (id : ObjectId) :
    findById (d :: rest) id = if d._id = id then some d else findById rest id := by
  by_cases hd : d._id = id <;> simp [findById, List.find?_cons, hd]

theorem updateFirst_cons (d : User) (rest : Store) (id : ObjectId) (f : User → User) :
    updateFirst (d :: rest) id f
      = if d._id = id then f d :: rest else d :: updateFirst rest id f := by
  by_cases hd : d._id = id <;> simp [updateFirst, hd]

theorem findById_of_mem {db : Store} {u : User} (h : u ∈ db) :
    ∃ first, findById db u._id = some first := by
  induction db with
  | nil => cases h
  | cons d rest ih =>
    by_cases hd : d._id = u._id
    · exact ⟨d, by simp [findById_cons, hd]⟩
    · rcases List.mem_cons.mp h with rfl | hmem
      · exact absurd rfl hd
      · obtain ⟨first, hfirst⟩ := ih hmem
        exact ⟨first, by simp [findById_cons, hd, hfirst]⟩

theorem findById_updateFirst_same {db : Store} {id : ObjectId} {u : User} (f : User → User)
    (h : findById db id = some u) (hf : (f u)._id = id) :
    findById (updateFirst db id f) id = some (f u) := by
  induction db with
  | nil => simp [findById] at h
  | cons d rest ih =>
    by_cases hd : d._id = id
    · have hu : d = u := by simpa [findById_cons, hd] using h
      subst hu
      simp [updateFirst_cons, findById_cons, hd, hf]
    · have hrest : findById rest id = some u := by
        simpa [findById_cons, hd] using h
      simp [updateFirst_cons, findById_cons, hd, ih hrest]

theorem findById_updateFirst_none {db : Store} {id : ObjectId} (f : User → User)
    (h : findById db id = none) : updateFirst db id f = db := by
  induction db with
  | nil => rfl
  | cons d rest ih =>
    by_cases hd : d._id = id
    · simp [findById_cons, hd] at h
    · have hrest : findById rest id = none := by
        simpa [findById_cons, hd] using h
      simp [updateFirst_cons, hd, ih hrest]

theorem findById_updateFirst_other {db : Store} {id other : ObjectId} (f : User → User)
    (hne : other ≠ id) (hf : ∀ d, d._id = id → (f d)._id = id) :
    findById (updateFirst db id f) other = findById db other := by
  induction db with
  | nil => rfl
  | cons d rest ih =>
    by_cases hd : d._id = id
    · have h2 : ¬ (f d)._id = other := fun h => hne (h ▸ (hf d hd) ▸ rfl)
      have hne2 : ¬ id = other := fun h => hne h.symm
      simp [updateFirst_cons, findById_cons, hd, h2, hne2]
    · by_cases ho : d._id = other
      · subst ho
        simp [updateFirst_cons, findById_cons, hd]
      · simp [updateFirst_cons, findById_cons, hd, ho, ih]

/-! ## Facts about token issuance -/

theorem jwtSign_ok {secret : String} (h : secret ≠ "") (id : ObjectId)
    (email username fullName : Option String) (expiresIn nowMs : Nat) :
    jwtSign id email username fullName secret expiresIn nowMs
      = .ok (.jwt { _id := id, email := email, username := username, fullName := fullName,
                    iat := clockTimestamp nowMs,
                    exp := clockTimestamp nowMs + expiresIn } secret) := by
  simp [jwtSign, truthyString_eq_true.mpr h]

theorem jwtSign_inv {secret : String} {id : ObjectId} {email username fullName : Option String}
    {expiresIn nowMs : Nat} {t : Token}
    (h : jwtSign id email username fullName secret expiresIn nowMs = .ok t) :
    secret ≠ "" ∧
    t = .jwt { _id := id, email := email, username := username, fullName := fullName,
               iat := clockTimestamp nowMs,
               exp := clockTimestamp nowMs + expiresIn } secret := by
  unfold jwtSign at h
  split at h
  · next hs => exact ⟨truthyString_eq_true.mp hs, by cases h; rfl⟩
  · cases h

theorem jwtVerify_inv {token : Token} {secret : String} {nowMs : Nat} {p : Payload}
    (h : jwtVerify token secret nowMs = .ok p) :
    secret ≠ "" ∧ token = .jwt p secret ∧ clockTimestamp nowMs < p.exp := by
  unfold jwtVerify at h
  split at h
  · split at h
    · cases h
    · split at h <;> cases h
  · next payload key =>
    split at h
    · cases h
    · next hs =>
      split at h
      · cases h
      · next hk =>
        split at h
        · cases h
        · next hexp =>
          cases h
          refine ⟨?_, ?_, by omega⟩
          · simpa [truthyString] using hs
          · simpa using hk

theorem jwtVerify_ok {secret : String} (hs : secret ≠ "") (p : Payload) {nowMs : Nat}
    (hexp : clockTimestamp nowMs < p.exp) :
    jwtVerify (.jwt p secret) secret nowMs = .ok p := by
  have h1 : truthyString secret = true := truthyString_eq_true.mpr hs
  have h2 : ¬ clockTimestamp nowMs ≥ p.exp := by omega
  simp [jwtVerify, h1, h2]

theorem preSave_refreshToken (u : User) (rt : Option Token) (salt : Nat) :
    preSave u { u with refreshToken := rt } salt = { u with refreshToken := rt } := by
  simp [preSave, isModifiedPassword]

theorem findById_save_refreshToken {db : Store} {id : ObjectId} {u : User}
    (hu : findById db id = some u) (rt : Token) (salt nowMs : Nat) :
    findById (save db u { u with refreshToken := some rt } salt nowMs) id
      = some { u with refreshToken := some rt,
                      updatedAt := if u.refreshToken = some rt then u.updatedAt else nowMs } := by
  have hid := findById_id hu
  unfold save
  simp only [preSave_refreshToken]
  by_cases h : u.refreshToken = some rt
  · have : ({ u with refreshToken := some rt } : User) = u := by
      cases u; simp_all
    simp [this, h, hu]
  · have hne : ({ u with refreshToken := some rt } : User) ≠ u := by
      intro hh; apply h; rw [← hh]
    simp only [hne, if_false, h]
    rw [hid]
    exact findById_updateFirst_same _ hu (by simp [hid])

theorem findById_save_other {db : Store} {u doc : User} (salt nowMs : Nat) {other : ObjectId}
    (hdoc : doc._id = u._id) (hne : other ≠ u._id) :
    findById (save db u doc salt nowMs) other = findById db other := by
  unfold save
  have hpre : (preSave u doc salt)._id = u._id := by
    unfold preSave; split <;> simp [hdoc]
  simp only []
  split
  · rfl
  · exact findById_updateFirst_other _ hne (fun d _ => by simp [hpre])

theorem generate_error {env : Env} {nowMs salt : Nat} {db db1 : Store} {id : ObjectId}
    {e : Thrown}
    (h : generateAccessAndRefereshTokens env nowMs salt db id = (.error e, db1)) :
    e = .apiError 500 "Something went wrong while generating refresh and access token"
      ∧ db1 = db := by
  unfold generateAccessAndRefereshTokens at h
  simp only [] at h
  split at h
  · cases h; exact ⟨rfl, rfl⟩
  · split at h
    · cases h; exact ⟨rfl, rfl⟩
    · split at h
      · cases h; exact ⟨rfl, rfl⟩
      · cases h

theorem generate_inv {env : Env} {nowMs salt : Nat} {db db1 : Store} {id : ObjectId}
    {pair : TokenPair}
    (h : generateAccessAndRefereshTokens env nowMs salt db id = (.ok pair, db1)) :
    ∃ u, findById db id = some u ∧
      generateAccessToken env nowMs u = .ok pair.accessToken ∧
      generateRefreshToken env nowMs u = .ok pair.refreshToken ∧
      db1 = save db u { u with refreshToken := some pair.refreshToken } salt nowMs := by
  unfold generateAccessAndRefereshTokens at h
  simp only [] at h
  split at h
  · cases h
  · next user hu =>
    split at h
    · cases h
    · next acc hacc =>
      split at h
      · cases h
      · next ref href =>
        cases h
        exact ⟨user, hu, hacc, href, rfl⟩

theorem generate_ok {env : Env} {db : Store} {id : ObjectId} {u : User}
    (hu : findById db id = some u) (hA : env.ACCESS_TOKEN_SECRET ≠ "")
    (hR : env.REFRESH_TOKEN_SECRET ≠ "") (nowMs salt : Nat) :
    ∃ acc ref,
      generateAccessToken env nowMs u = .ok acc ∧
      generateRefreshToken env nowMs u = .ok ref ∧
      generateAccessAndRefereshTokens env nowMs salt db id
        = (.ok { accessToken := acc, refreshToken := ref },
           save db u { u with refreshToken := some ref } salt nowMs) := by
  refine ⟨_, _, jwtSign_ok hA _ _ _ _ _ _, jwtSign_ok hR _ _ _ _ _ _, ?_⟩
  simp [generateAccessAndRefereshTokens, hu, generateAccessToken, generateRefreshToken,
    jwtSign_ok hA, jwtSign_ok hR]

/-! ## Facts about `refreshAccessToken` -/

theorem refreshAttempt_error {env : Env} {nowMs salt : Nat} {db db1 : Store} {t : Token}
    {e : Thrown} (h : refreshAttempt env nowMs salt db t = (.error e, db1)) : db1 = db := by
  unfold refreshAttempt at h
  split at h
  · cases h; rfl
  · split at h
    · cases h; rfl
    · split at h
      · cases h; rfl
      · split at h
        · next e1 d1 hg =>
          cases h
          exact (generate_error hg).2
        · cases h

theorem refreshAttempt_ok_inv {env : Env} {nowMs salt : Nat} {db db1 : Store} {t : Token}
    {res : Response} (h : refreshAttempt env nowMs salt db t = (.ok res, db1)) :
    ∃ p u pair, jwtVerify t env.REFRESH_TOKEN_SECRET nowMs = .ok p ∧
      findById db p._id = some u ∧ u.refreshToken = some t ∧
      generateAccessAndRefereshTokens env nowMs salt db u._id = (.ok pair, db1) ∧
      res = { status := 200,
              cookies := [setCookie "accessToken" (pair.get "accessToken"),
                          setCookie "refreshToken" (pair.get "newRefreshToken")],
              cleared := [],
              json := ApiResponse.new 200
                (.tokens (pair.get "accessToken") (pair.get "newRefreshToken"))
                "Access token refreshed" } := by
  unfold refreshAttempt at h
  split at h
  · cases h
  · next p hp =>
    split at h
    · cases h
    · next u hu =>
      split at h
      · cases h
      · next hne =>
        split at h
        · cases h
        · next pair d1 hg =>
          cases h
          refine ⟨p, u, pair, hp, hu, ?_, hg, rfl⟩
          exact (by simpa using hne : some t = u.refreshToken).symm

theorem refresh_unfold_truthy {env : Env} {nowMs salt : Nat} {db : Store}
    {req : RefreshRequest} {t : Token}
    (hpres : orToken req.cookieRefreshToken req.bodyRefreshToken = some t)
    (htruthy : truthyToken (some t) = true) :
    refreshAccessToken env nowMs salt db req =
      match refreshAttempt env nowMs salt db t with
      | (.ok res, db1) => (.ok res, db1)
      | (.error e, db1) => (.error (.apiError 401 (messageOr e "Invalid refresh token")), db1) := by
  unfold refreshAccessToken
  simp only [hpres, htruthy]
  rfl

theorem refresh_ok_inv {env : Env} {nowMs salt : Nat} {db db1 : Store}
    {req : RefreshRequest} {res : Response}
    (h : refreshAccessToken env nowMs salt db req = (.ok res, db1)) :
    ∃ t, orToken req.cookieRefreshToken req.bodyRefreshToken = some t ∧
      refreshAttempt env nowMs salt db t = (.ok res, db1) := by
  unfold refreshAccessToken at h
  simp only [] at h
  split at h
  · cases h
  · next t ht =>
    split at h
    · cases h
    · split at h
      · next r d hr =>
        cases h
        exact ⟨t, ht, hr⟩
      · cases h

theorem refreshAttempt_reject {env : Env} {nowMs : Nat} {db : Store} {t : Token} (salt : Nat)
    (h : (∃ e, jwtVerify t env.REFRESH_TOKEN_SECRET nowMs = .error e) ∨
         ∃ p, jwtVerify t env.REFRESH_TOKEN_SECRET nowMs = .ok p ∧
           (findById db p._id = none ∨
            ∃ u, findById db p._id = some u ∧ u.refreshToken ≠ some t)) :
    ∃ e, refreshAttempt env nowMs salt db t = (.error e, db) := by
  rcases h with ⟨e, he⟩ | ⟨p, hp, hnone | ⟨u, hu, hne⟩⟩
  · exact ⟨e, by simp [refreshAttempt, he]⟩
  · exact ⟨.apiError 401 "Invalid refresh token", by simp [refreshAttempt, hp, hnone]⟩
  · have hne2 : ¬ some t = u.refreshToken := fun hh => hne hh.symm
    exact ⟨.apiError 401 "Refresh token is expired or used",
      by simp [refreshAttempt, hp, hu, hne2]⟩

theorem refresh_reject {env : Env} {nowMs : Nat} {db : Store} {req : RefreshRequest}
    {t : Token} (salt : Nat)
    (hpres : orToken req.cookieRefreshToken req.bodyRefreshToken = some t)
    (h : (∃ e, jwtVerify t env.REFRESH_TOKEN_SECRET nowMs = .error e) ∨
         ∃ p, jwtVerify t env.REFRESH_TOKEN_SECRET nowMs = .ok p ∧
           (findById db p._id = none ∨
            ∃ u, findById db p._id = some u ∧ u.refreshToken ≠ some t)) :
    ∃ m, refreshAccessToken env nowMs salt db req = (.error (.apiError 401 m), db) := by
  obtain ⟨e, he⟩ := refreshAttempt_reject salt h
  by_cases htruthy : truthyToken (some t) = true
  · rw [refresh_unfold_truthy hpres htruthy, he]
    exact ⟨_, rfl⟩
  · refine ⟨"unauthorized request", ?_⟩
    unfold refreshAccessToken
    simp [hpres, htruthy]

theorem refresh_accept {env : Env} {nowMs : Nat} {db : Store} {req : RefreshRequest}
    {t : Token} {p : Payload} {u : User} (salt : Nat)
    (hpres : orToken req.cookieRefreshToken req.bodyRefreshToken = some t)
    (hp : jwtVerify t env.REFRESH_TOKEN_SECRET nowMs = .ok p)
    (hu : findById db p._id = some u) (hstored : u.refreshToken = some t)
    (hA : env.ACCESS_TOKEN_SECRET ≠ "") :
    ∃ acc ref,
      generateAccessToken env nowMs u = .ok acc ∧
      generateRefreshToken env nowMs u = .ok ref ∧
      refreshAccessToken env nowMs salt db req
        = (.ok { status := 200,
                 cookies := [setCookie "accessToken" (some acc),
                             setCookie "refreshToken" none],
                 cleared := [],
                 json := ApiResponse.new 200 (.tokens (some acc) none)
                           "Access token refreshed" },
           save db u { u with refreshToken := some ref } salt nowMs) := by
  obtain ⟨hR, ht, _⟩ := jwtVerify_inv hp
  have hid := findById_id hu
  obtain ⟨acc, ref, hacc, href, hg⟩ := generate_ok (hid ▸ hu) hA hR nowMs salt
  refine ⟨acc, ref, hacc, href, ?_⟩
  have htruthy : truthyToken (some t) = true := by rw [ht]; rfl
  rw [refresh_unfold_truthy hpres htruthy]
  simp [refreshAttempt, hp, hu, hstored, hg, TokenPair.get]

/-! ## Rotation -/

/-- C1 as stated fails: alice logs in at 5000 ms, refreshes at 5400 ms with the
session token of that login, and the same token is accepted again at 5900 ms.
The refresh within the second of issue signs the very same token, so the store
still holds it. -/
theorem refresh_replay_in_issuing_second :
    (loginUser sampleEnv 5000 7 [alice] aliceLogin).2 = aliceLoggedIn ∧
    ((refreshAccessToken sampleEnv 5400 7 aliceLoggedIn
        { cookieRefreshToken := some sessionToken, bodyRefreshToken := none }).1.toOption.map
        Response.status = some 200) ∧
    (refreshAccessToken sampleEnv 5400 7 aliceLoggedIn
        { cookieRefreshToken := some sessionToken, bodyRefreshToken := none }).2
      = aliceLoggedIn ∧
    ((refreshAccessToken sampleEnv 5900 7 aliceLoggedIn
        { cookieRefreshToken := some sessionToken, bodyRefreshToken := none }).1.toOption.map
        Response.status = some 200) := by
  refine ⟨?_, ?_, ?_, ?_⟩ <;> rfl

/-- C1, amended: when a refresh presenting `T` succeeds, the record holds the
token `newT` signed at that second, which differs from `T` whenever `T` was
issued in another second; if `newT` differs from `T`, every later refresh
presenting `T` fails with 401 and leaves the store as it is; and a refresh
presenting `newT` before its expiry succeeds with 200. -/
theorem refresh_rotation (env : Env) (now1 salt1 : Nat) (db db1 : Store)
    (req : RefreshRequest) (T : Token) (res : Response)
    (hpres : orToken req.cookieRefreshToken req.bodyRefreshToken = some T)
    (hok : refreshAccessToken env now1 salt1 db req = (.ok res, db1)) :
    ∃ (p : Payload) (u1 : User) (newT : Token),
      jwtVerify T env.REFRESH_TOKEN_SECRET now1 = .ok p ∧
      findById db1 p._id = some u1 ∧ u1.refreshToken = some newT ∧
      newT = .jwt { _id := p._id, email := none, username := none, fullName := none,
                    iat := clockTimestamp now1,
                    exp := clockTimestamp now1 + env.REFRESH_TOKEN_EXPIRY }
                  env.REFRESH_TOKEN_SECRET ∧
      (p.iat ≠ clockTimestamp now1 → newT ≠ T) ∧
      (newT ≠ T → ∀ (now2 salt2 : Nat) (req2 : RefreshRequest),
        orToken req2.cookieRefreshToken req2.bodyRefreshToken = some T →
        ∃ m, refreshAccessToken env now2 salt2 db1 req2 = (.error (.apiError 401 m), db1)) ∧
      (∀ (now3 salt3 : Nat) (req3 : RefreshRequest),
        orToken req3.cookieRefreshToken req3.bodyRefreshToken = some newT →
        clockTimestamp now3 < clockTimestamp now1 + env.REFRESH_TOKEN_EXPIRY →
        ∃ res3 db3, refreshAccessToken env now3 salt3 db1 req3 = (.ok res3, db3)
          ∧ res3.status = 200) := by
  obtain ⟨t, ht, hatt⟩ := refresh_ok_inv hok
  have htT : t = T := by rw [hpres] at ht; exact (Option.some.inj ht).symm
  subst htT
  obtain ⟨p, u, pair, hp, hu, hstored, hgen, _⟩ := refreshAttempt_ok_inv hatt
  obtain ⟨hR, hT, _⟩ := jwtVerify_inv hp
  have hid : u._id = p._id := findById_id hu
  obtain ⟨u0, hu0, hacc, href, hdb1⟩ := generate_inv hgen
  have hu0u : u0 = u := by
    rw [hid, hu] at hu0; exact (Option.some.inj hu0).symm
  subst hu0u
  obtain ⟨hA, _⟩ := jwtSign_inv hacc
  obtain ⟨_, hnew⟩ := jwtSign_inv href
  have hfind : findById db1 p._id
      = some { u0 with refreshToken := some pair.refreshToken,
                       updatedAt := if u0.refreshToken = some pair.refreshToken
                                    then u0.updatedAt else now1 } := by
    rw [hdb1]; exact findById_save_refreshToken hu _ _ _
  refine ⟨p, _, pair.refreshToken, hp, hfind, rfl, by rw [hnew, hid], ?_, ?_, ?_⟩
  · intro hiat heq
    rw [hnew, hT] at heq
    injection heq with h1 _
    exact hiat (by rw [← h1])
  · intro hne now2 salt2 req2 hpres2
    refine refresh_reject salt2 hpres2 ?_
    cases hv : jwtVerify t env.REFRESH_TOKEN_SECRET now2 with
    | error e => exact Or.inl ⟨e, rfl⟩
    | ok p2 =>
      right
      obtain ⟨_, hT2, _⟩ := jwtVerify_inv hv
      have hpp : p2 = p := by
        rw [hT] at hT2
        injection hT2 with h1 _
        exact h1.symm
      subst hpp
      exact ⟨p2, rfl, Or.inr ⟨_, hfind, fun hh => hne (Option.some.inj hh)⟩⟩
  · intro now3 salt3 req3 hpres3 hlt
    have hv : jwtVerify pair.refreshToken env.REFRESH_TOKEN_SECRET now3
        = .ok { _id := u0._id, email := none, username := none, fullName := none,
                iat := clockTimestamp now1,
                exp := clockTimestamp now1 + env.REFRESH_TOKEN_EXPIRY } := by
      rw [hnew]; exact jwtVerify_ok hR _ hlt
    obtain ⟨acc, ref, _, _, h3⟩ :=
      refresh_accept salt3 hpres3 hv (by rw [hid]; exact hfind) rfl hA
    exact ⟨_, _, h3, rfl⟩

/-- C1, witness of `refresh_rotation`: alice, logged in at second 5, refreshes at
7400 ms. -/
theorem refresh_rotation_witness :
    orToken (some sessionToken) none = some sessionToken ∧
    (∃ res, refreshAccessToken sampleEnv 7400 7 aliceLoggedIn
        { cookieRefreshToken := some sessionToken, bodyRefreshToken := none }
      = (.ok res, aliceRotated)) ∧
    ∃ (p : Payload) (u1 : User) (newT : Token),
      jwtVerify sessionToken sampleEnv.REFRESH_TOKEN_SECRET 7400 = .ok p ∧
      findById aliceRotated p._id = some u1 ∧ u1.refreshToken = some newT ∧
      newT = .jwt { _id := p._id, email := none, username := none, fullName := none,
                    iat := clockTimestamp 7400,
                    exp := clockTimestamp 7400 + sampleEnv.REFRESH_TOKEN_EXPIRY }
                  sampleEnv.REFRESH_TOKEN_SECRET ∧
      (p.iat ≠ clockTimestamp 7400 → newT ≠ sessionToken) ∧
      (newT ≠ sessionToken → ∀ (now2 salt2 : Nat) (req2 : RefreshRequest),
        orToken req2.cookieRefreshToken req2.bodyRefreshToken = some sessionToken →
        ∃ m, refreshAccessToken sampleEnv now2 salt2 aliceRotated req2
          = (.error (.apiError 401 m), aliceRotated)) ∧
      (∀ (now3 salt3 : Nat) (req3 : RefreshRequest),
        orToken req3.cookieRefreshToken req3.bodyRefreshToken = some newT →
        clockTimestamp now3 < clockTimestamp 7400 + sampleEnv.REFRESH_TOKEN_EXPIRY →
        ∃ res3 db3, refreshAccessToken sampleEnv now3 salt3 aliceRotated req3 = (.ok res3, db3)
          ∧ res3.status = 200) :=
  ⟨rfl, ⟨_, rfl⟩,
   refresh_rotation sampleEnv 7400 7 aliceLoggedIn aliceRotated
     { cookieRefreshToken := some sessionToken, bodyRefreshToken := none } sessionToken _
     rfl rfl⟩

/-! ## The response of a refresh -/

theorem cookie_refresh_response (acc : Option Token) (new : Option Token) (st : Nat)
    (json : ApiResponse) :
    Response.cookie { status := st,
                      cookies := [setCookie "accessToken" acc, setCookie "refreshToken" new],
                      cleared := [], json := json } "refreshToken"
      = some (setCookie "refreshToken" new).value := by
  simp [Response.cookie, setCookie, List.find?_cons]

/-- C2 fails on the code: after every successful refresh the record holds the
newly signed session token, a JSON web token, while the body of the response
has no `refreshToken` and the cookie `refreshToken` is the text `undefined`.
The handler reads the key `newRefreshToken` of an object whose keys are
`accessToken` and `refreshToken`. -/
theorem refresh_response_lacks_session_token (env : Env) (nowMs salt : Nat) (db db1 : Store)
    (req : RefreshRequest) (res : Response)
    (hok : refreshAccessToken env nowMs salt db req = (.ok res, db1)) :
    ∃ (id : ObjectId) (u1 : User) (p : Payload) (acc : Token),
      findById db1 id = some u1 ∧
      u1.refreshToken = some (.jwt p env.REFRESH_TOKEN_SECRET) ∧
      res.json.data = .tokens (some acc) none ∧
      res.cookie "refreshToken" = some (.raw "undefined") := by
  obtain ⟨t, _, hatt⟩ := refresh_ok_inv hok
  obtain ⟨p, u, pair, hp, hu, _, hgen, hres⟩ := refreshAttempt_ok_inv hatt
  obtain ⟨u0, hu0, _, href, hdb1⟩ := generate_inv hgen
  obtain ⟨_, hnew⟩ := jwtSign_inv href
  have hfind := findById_save_refreshToken hu0 pair.refreshToken salt nowMs
  rw [← hdb1] at hfind
  refine ⟨u._id, _,
    { _id := u0._id, email := none, username := none, fullName := none,
      iat := clockTimestamp nowMs, exp := clockTimestamp nowMs + env.REFRESH_TOKEN_EXPIRY },
    pair.accessToken, hfind, ?_, ?_, ?_⟩
  · simp only [hnew]
  · rw [hres]; simp [ApiResponse.new, TokenPair.get]
  · rw [hres, cookie_refresh_response]; simp [setCookie, TokenPair.get]

/-- C2, witness of `refresh_response_lacks_session_token`: the refresh of alice at
7400 ms. -/
theorem refresh_response_lacks_session_token_witness :
    ∃ res, refreshAccessToken sampleEnv 7400 7 aliceLoggedIn
        { cookieRefreshToken := some sessionToken, bodyRefreshToken := none }
        = (.ok res, aliceRotated) ∧
      ∃ (id : ObjectId) (u1 : User) (p : Payload) (acc : Token),
        findById aliceRotated id = some u1 ∧
        u1.refreshToken = some (.jwt p sampleEnv.REFRESH_TOKEN_SECRET) ∧
        res.json.data = .tokens (some acc) none ∧
        res.cookie "refreshToken" = some (.raw "undefined") :=
  ⟨_, rfl, refresh_response_lacks_session_token sampleEnv 7400 7 aliceLoggedIn aliceRotated
    { cookieRefreshToken := some sessionToken, bodyRefreshToken := none } _ rfl⟩

/-! ## Login -/

theorem selectPublic_hides (u : User) (password : String) (refreshToken : Option Token) :
    selectPublic { u with password := password, refreshToken := refreshToken }
      = selectPublic u := rfl

theorem login_guard_passes {body : LoginBody}
    (h : truthyOpt body.username = true ∨ truthyOpt body.email = true) :
    (!truthyOpt body.username && !truthyOpt body.email) = false := by
  rcases h with h | h <;> simp [h]

theorem login_accept [CaseMapping] {env : Env} {db : Store} {body : LoginBody} {u : User}
    {pw : String}
    (nowMs salt : Nat)
    (hguard : truthyOpt body.username = true ∨ truthyOpt body.email = true)
    (hfind : findOne db body.username body.email = some u)
    (hpw : body.password = some pw) (hcmp : bcryptCompare pw u.password = true)
    (hA : env.ACCESS_TOKEN_SECRET ≠ "") (hR : env.REFRESH_TOKEN_SECRET ≠ "") :
    ∃ u0 acc ref,
      findById db u._id = some u0 ∧
      generateAccessToken env nowMs u0 = .ok acc ∧
      generateRefreshToken env nowMs u0 = .ok ref ∧
      loginUser env nowMs salt db body
        = (.ok { status := 200,
                 cookies := [setCookie "refreshToken" (some ref),
                             setCookie "accessToken" (some acc)],
                 cleared := [],
                 json := ApiResponse.new 200
                   (.session
                     (some (selectPublic
                       { u0 with refreshToken := some ref,
                                 updatedAt := if u0.refreshToken = some ref
                                              then u0.updatedAt else nowMs }))
                     (some acc) (some ref))
                   "User logged In Successfully" },
           save db u0 { u0 with refreshToken := some ref } salt nowMs) := by
  obtain ⟨u0, hu0⟩ := findById_of_mem (findOne_mem hfind)
  obtain ⟨acc, ref, hacc, href, hg⟩ := generate_ok hu0 hA hR nowMs salt
  refine ⟨u0, acc, ref, hu0, hacc, href, ?_⟩
  have hview := findById_save_refreshToken hu0 ref salt nowMs
  unfold loginUser
  simp only [login_guard_passes hguard, hfind, hpw, isPasswordCorrect, hcmp, hg, hview]
  simp [TokenPair.get]

theorem login_not_found [CaseMapping] {db : Store} {body : LoginBody} (env : Env) (nowMs salt : Nat)
    (hguard : truthyOpt body.username = true ∨ truthyOpt body.email = true)
    (hfind : findOne db body.username body.email = none) :
    loginUser env nowMs salt db body = (.error (.apiError 404 "User does not exist"), db) := by
  unfold loginUser
  simp [login_guard_passes hguard, hfind]

theorem login_wrong_password [CaseMapping] {db : Store} {body : LoginBody} {u : User} {pw : String}
    (env : Env) (nowMs salt : Nat)
    (hguard : truthyOpt body.username = true ∨ truthyOpt body.email = true)
    (hfind : findOne db body.username body.email = some u)
    (hpw : body.password = some pw) (hcmp : bcryptCompare pw u.password = false) :
    loginUser env nowMs salt db body
      = (.error (.apiError 401 "Invalid user credentials"), db) := by
  unfold loginUser
  simp [login_guard_passes hguard, hfind, hpw, isPasswordCorrect, hcmp]

/-- C3 as stated fails: the body names alice by username and carries her
password, yet the lookup returns bob, whom the email names and who comes first
in the collection, and the login fails with 401. -/
theorem login_other_record_found :
    alice ∈ [bob, alice] ∧
    matchesOr mixedLoginAlice.username mixedLoginAlice.email alice = true ∧
    bcryptCompare "secret1" alice.password = true ∧
    loginUser sampleEnv 5000 7 [bob, alice] mixedLoginAlice
      = (.error (.apiError 401 "Invalid user credentials"), [bob, alice]) := by
  refine ⟨by simp, ?_, ?_, ?_⟩ <;> rfl

/-- C3, amended: when the lookup by username or email returns the record `u`
(the first record that matches), the body carries a non-empty username or
email and a password that compares equal to the hash of `u`, and both secrets
are set, `loginUser` answers 200; the access token is signed with the access
secret, carries the id of `u` and verifies until its expiry; the refresh token
returned is the one the record holds afterwards; and the user returned is the
projection of that record, which does not depend on its password or
refreshToken. -/
theorem login_succeeds [CaseMapping] (env : Env) (nowMs salt : Nat) (db : Store) (body : LoginBody)
    (u : User) (pw : String)
    (hguard : truthyOpt body.username = true ∨ truthyOpt body.email = true)
    (hfind : findOne db body.username body.email = some u)
    (hpw : body.password = some pw) (hcmp : bcryptCompare pw u.password = true)
    (hA : env.ACCESS_TOKEN_SECRET ≠ "") (hR : env.REFRESH_TOKEN_SECRET ≠ "") :
    ∃ (res : Response) (db1 : Store) (p : Payload) (acc ref : Token) (u1 : User),
      loginUser env nowMs salt db body = (.ok res, db1) ∧
      res.status = 200 ∧
      res.json.data = .session (some (selectPublic u1)) (some acc) (some ref) ∧
      acc = .jwt p env.ACCESS_TOKEN_SECRET ∧ p._id = u._id ∧
      (∀ t, clockTimestamp t < p.exp → jwtVerify acc env.ACCESS_TOKEN_SECRET t = .ok p) ∧
      findById db1 u._id = some u1 ∧ u1.refreshToken = some ref ∧
      (∀ (password : String) (refreshToken : Option Token),
        selectPublic { u1 with password := password, refreshToken := refreshToken }
          = selectPublic u1) := by
  obtain ⟨u0, acc, ref, hu0, hacc, href, hlogin⟩ :=
    login_accept nowMs salt hguard hfind hpw hcmp hA hR
  obtain ⟨_, hjwt⟩ := jwtSign_inv hacc
  have hid : u0._id = u._id := findById_id hu0
  refine ⟨_, _, _, acc, ref, _, hlogin, rfl, rfl, hjwt, hid, ?_,
    findById_save_refreshToken hu0 ref salt nowMs, rfl, fun _ _ => rfl⟩
  intro t ht
  rw [hjwt]
  exact jwtVerify_ok hA _ ht

/-- C3, witness of `login_succeeds`: alice logs in at 5000 ms. -/
theorem login_succeeds_witness :
    ∃ (res : Response) (db1 : Store) (p : Payload) (acc ref : Token) (u1 : User),
      loginUser sampleEnv 5000 7 [bob, alice] aliceLogin = (.ok res, db1) ∧
      res.status = 200 ∧
      res.json.data = .session (some (selectPublic u1)) (some acc) (some ref) ∧
      acc = .jwt p sampleEnv.ACCESS_TOKEN_SECRET ∧ p._id = alice._id ∧
      (∀ t, clockTimestamp t < p.exp →
        jwtVerify acc sampleEnv.ACCESS_TOKEN_SECRET t = .ok p) ∧
      findById db1 alice._id = some u1 ∧ u1.refreshToken = some ref ∧
      (∀ (password : String) (refreshToken : Option Token),
        selectPublic { u1 with password := password, refreshToken := refreshToken }
          = selectPublic u1) :=
  login_succeeds sampleEnv 5000 7 [bob, alice] aliceLogin alice "secret1"
    (Or.inl rfl) rfl rfl rfl (by decide) (by decide)

/-- C4 as stated fails: alice matches the body by username and the password
does not compare equal to her hash, yet the lookup returns bob, whose password
it is, and the login succeeds and writes a session token. -/
theorem login_succeeds_despite_mismatch :
    alice ∈ [bob, alice] ∧
    matchesOr mixedLoginBob.username mixedLoginBob.email alice = true ∧
    bcryptCompare "hunter2" alice.password = false ∧
    ((loginUser sampleEnv 5000 7 [bob, alice] mixedLoginBob).1.toOption.map
        Response.status = some 200) ∧
    (loginUser sampleEnv 5000 7 [bob, alice] mixedLoginBob).2 ≠ [bob, alice] := by
  refine ⟨by simp, ?_, ?_, ?_, ?_⟩
  · rfl
  · rfl
  · rfl
  · decide

/-- C4, amended: for a body with a non-empty username or email and a password,
`loginUser` fails with 404 when no record matches the username or the email,
and with 401 when the record the lookup returns (the first that matches) has a
hash the password does not compare equal to; in both cases the collection is
unchanged and nothing but the error is returned. -/
theorem login_rejects [CaseMapping] (env : Env) (nowMs salt : Nat) (db : Store) (body : LoginBody)
    (pw : String)
    (hguard : truthyOpt body.username = true ∨ truthyOpt body.email = true)
    (hpw : body.password = some pw) :
    ((∀ u ∈ db, matchesOr body.username body.email u = false) →
      loginUser env nowMs salt db body
        = (.error (.apiError 404 "User does not exist"), db)) ∧
    (∀ u, findOne db body.username body.email = some u →
      bcryptCompare pw u.password = false →
      loginUser env nowMs salt db body
        = (.error (.apiError 401 "Invalid user credentials"), db)) := by
  constructor
  · intro hnone
    apply login_not_found env nowMs salt hguard
    unfold findOne
    rw [List.find?_eq_none]
    intro u hu
    simp [hnone u hu]
  · intro u hfind hcmp
    exact login_wrong_password env nowMs salt hguard hfind hpw hcmp

/-- C4, witness of `login_rejects`: an unknown name, and a wrong password for
alice. -/
theorem login_rejects_witness :
    loginUser sampleEnv 5000 7 [bob, alice] carolLogin
      = (.error (.apiError 404 "User does not exist"), [bob, alice]) ∧
    loginUser sampleEnv 5000 7 [bob, alice] aliceWrongLogin
      = (.error (.apiError 401 "Invalid user credentials"), [bob, alice]) :=
  ⟨(login_rejects sampleEnv 5000 7 [bob, alice] carolLogin "secret1" (Or.inl rfl) rfl).1
      (by decide),
   (login_rejects sampleEnv 5000 7 [bob, alice] aliceWrongLogin "wrong" (Or.inl rfl) rfl).2
      alice rfl rfl⟩

/-- C10 fails on the code: a body with a username and no password is not
answered with 400.  When the name is registered, `bcrypt.compare` rejects with
a plain error that has no status code; when it is not, the answer is 404. -/
theorem login_without_password :
    loginUser sampleEnv 5000 7 [alice] loginNoPassword
      = (.error (.error "data and hash arguments required"), [alice]) ∧
    (Thrown.error "data and hash arguments required").statusCode = none ∧
    loginUser sampleEnv 5000 7 [alice] loginUnknownNoPassword
      = (.error (.apiError 404 "User does not exist"), [alice]) := by
  refine ⟨?_, ?_, ?_⟩ <;> rfl

/-- The guard of `loginUser`: a body with neither a non-empty username nor a
non-empty email is answered with 400, whatever its password. -/
theorem login_missing_identifier [CaseMapping] (env : Env) (nowMs salt : Nat) (db : Store)
    (body : LoginBody)
    (hu : truthyOpt body.username = false) (he : truthyOpt body.email = false) :
    loginUser env nowMs salt db body
      = (.error (.apiError 400 "username or email is required"), db) := by
  simp [loginUser, hu, he]

/-! ## Rejections of `refreshAccessToken` -/

theorem refresh_falsy {env : Env} {nowMs salt : Nat} {db : Store} {req : RefreshRequest}
    (h : truthyToken (orToken req.cookieRefreshToken req.bodyRefreshToken) = false) :
    refreshAccessToken env nowMs salt db req
      = (.error (.apiError 401 "unauthorized request"), db) := by
  unfold refreshAccessToken
  cases hp : orToken req.cookieRefreshToken req.bodyRefreshToken with
  | none => rfl
  | some t =>
    rw [hp] at h
    simp [h]

theorem truthy_of_jwtVerify_ok {t : Token} {secret : String} {nowMs : Nat} {p : Payload}
    (h : jwtVerify t secret nowMs = .ok p) : truthyToken (some t) = true := by
  obtain ⟨_, ht, _⟩ := jwtVerify_inv h
  rw [ht]; rfl

theorem jwtVerify_error_message {t : Token} {secret : String} {nowMs : Nat} {e : Thrown}
    (h : jwtVerify t secret nowMs = .error e) :
    e = .error "jwt must be provided" ∨ e = .error "jwt malformed" ∨
    e = .error "invalid token" ∨ e = .error "secret or public key must be provided" ∨
    e = .error "invalid signature" ∨ e = .error "jwt expired" := by
  unfold jwtVerify at h
  split at h
  · split at h
    · cases h; exact Or.inl rfl
    · split at h
      · cases h; exact Or.inr (Or.inl rfl)
      · cases h; exact Or.inr (Or.inr (Or.inl rfl))
  · refine Or.inr (Or.inr (Or.inr ?_))
    split at h
    · cases h; exact Or.inl rfl
    · split at h
      · cases h; exact Or.inr (Or.inl rfl)
      · split at h
        · cases h; exact Or.inr (Or.inr rfl)
        · cases h

theorem refresh_of_verify_error {env : Env} {nowMs : Nat} {req : RefreshRequest}
    {T : Token} {e : Thrown} (salt : Nat) (db : Store)
    (hpres : orToken req.cookieRefreshToken req.bodyRefreshToken = some T)
    (he : jwtVerify T env.REFRESH_TOKEN_SECRET nowMs = .error e) :
    refreshAccessToken env nowMs salt db req
      = (.error (.apiError 401
          (if truthyToken (some T) = true then messageOr e "Invalid refresh token"
           else "unauthorized request")), db) := by
  by_cases htruthy : truthyToken (some T) = true
  · rw [refresh_unfold_truthy hpres htruthy]
    simp [refreshAttempt, he, htruthy]
  · have hfalse : truthyToken (orToken req.cookieRefreshToken req.bodyRefreshToken) = false := by
      rw [hpres]; simpa using htruthy
    rw [refresh_falsy hfalse]
    simp [htruthy]

/-- C5: `refreshAccessToken` fails with 401 and leaves the collection as it is
when no token is presented, when the presented token fails verification under
the refresh secret (a token whose expiry second has arrived included, though
the record still holds it), when its id has no record, and when it is not the
token the record holds (a record whose field was unset included).  The
comparison with the stored token comes after verification: on a token that
fails verification the outcome is the same for every collection, and the error
of the comparison is only ever raised on a token that verified. -/
theorem refresh_rejects (env : Env) (nowMs salt : Nat) (db : Store) (req : RefreshRequest) :
    (truthyToken (orToken req.cookieRefreshToken req.bodyRefreshToken) = false →
      refreshAccessToken env nowMs salt db req
        = (.error (.apiError 401 "unauthorized request"), db)) ∧
    (∀ T, orToken req.cookieRefreshToken req.bodyRefreshToken = some T →
      (∀ e, jwtVerify T env.REFRESH_TOKEN_SECRET nowMs = .error e →
        (∃ m, refreshAccessToken env nowMs salt db req = (.error (.apiError 401 m), db)) ∧
        (∀ db2, (refreshAccessToken env nowMs salt db2 req).1
                  = (refreshAccessToken env nowMs salt db req).1)) ∧
      (∀ p, jwtVerify T env.REFRESH_TOKEN_SECRET nowMs = .ok p →
        findById db p._id = none →
        refreshAccessToken env nowMs salt db req
          = (.error (.apiError 401 "Invalid refresh token"), db)) ∧
      (∀ p u, jwtVerify T env.REFRESH_TOKEN_SECRET nowMs = .ok p →
        findById db p._id = some u → u.refreshToken ≠ some T →
        refreshAccessToken env nowMs salt db req
          = (.error (.apiError 401 "Refresh token is expired or used"), db))) ∧
    (∀ p u, env.REFRESH_TOKEN_SECRET ≠ "" →
      orToken req.cookieRefreshToken req.bodyRefreshToken
        = some (.jwt p env.REFRESH_TOKEN_SECRET) →
      clockTimestamp nowMs = p.exp →
      findById db p._id = some u →
      u.refreshToken = some (.jwt p env.REFRESH_TOKEN_SECRET) →
      refreshAccessToken env nowMs salt db req = (.error (.apiError 401 "jwt expired"), db)) ∧
    (∀ db1, refreshAccessToken env nowMs salt db req
        = (.error (.apiError 401 "Refresh token is expired or used"), db1) →
      ∃ T p, orToken req.cookieRefreshToken req.bodyRefreshToken = some T ∧
        jwtVerify T env.REFRESH_TOKEN_SECRET nowMs = .ok p) := by
  refine ⟨fun h => refresh_falsy h, ?_, ?_, ?_⟩
  · intro T hpres
    refine ⟨?_, ?_, ?_⟩
    · intro e he
      refine ⟨⟨_, refresh_of_verify_error salt db hpres he⟩, fun db2 => ?_⟩
      rw [refresh_of_verify_error salt db hpres he, refresh_of_verify_error salt db2 hpres he]
    · intro p hp hnone
      rw [refresh_unfold_truthy hpres (truthy_of_jwtVerify_ok hp)]
      simp [refreshAttempt, hp, hnone, messageOr, Thrown.message, truthyString]
    · intro p u hp hu hne
      have hne2 : ¬ some T = u.refreshToken := fun hh => hne hh.symm
      rw [refresh_unfold_truthy hpres (truthy_of_jwtVerify_ok hp)]
      simp [refreshAttempt, hp, hu, hne2, messageOr, Thrown.message, truthyString]
  · intro p u hR hpres hexp _ _
    have hs : truthyString env.REFRESH_TOKEN_SECRET = true := truthyString_eq_true.mpr hR
    have he : jwtVerify (.jwt p env.REFRESH_TOKEN_SECRET) env.REFRESH_TOKEN_SECRET nowMs
        = .error (.error "jwt expired") := by
      simp [jwtVerify, hs, hexp]
    rw [refresh_of_verify_error salt db hpres he]
    simp [truthyToken, messageOr, Thrown.message, truthyString]
  · intro db1 h
    cases hp : orToken req.cookieRefreshToken req.bodyRefreshToken with
    | none =>
      rw [refresh_falsy (by rw [hp]; rfl)] at h
      simp at h
    | some T =>
      cases hv : jwtVerify T env.REFRESH_TOKEN_SECRET nowMs with
      | ok p => exact ⟨T, p, rfl, hv⟩
      | error e =>
        rw [refresh_of_verify_error salt db hp hv] at h
        rcases jwtVerify_error_message hv with rfl | rfl | rfl | rfl | rfl | rfl <;>
          (split at h <;> simp [messageOr, Thrown.message, truthyString] at h)

/-- C5, witness of `refresh_rejects`: no token at all; the token of alice at the
second of its expiry; and the token of alice after a rotation replaced it. -/
theorem refresh_rejects_witness :
    refreshAccessToken sampleEnv 7400 7 aliceLoggedIn
        { cookieRefreshToken := none, bodyRefreshToken := none }
      = (.error (.apiError 401 "unauthorized request"), aliceLoggedIn) ∧
    refreshAccessToken sampleEnv 9000 7 aliceShort
        { cookieRefreshToken := none, bodyRefreshToken := some shortToken }
      = (.error (.apiError 401 "jwt expired"), aliceShort) ∧
    refreshAccessToken sampleEnv 7900 7 aliceRotated
        { cookieRefreshToken := some sessionToken, bodyRefreshToken := none }
      = (.error (.apiError 401 "Refresh token is expired or used"), aliceRotated) :=
  ⟨(refresh_rejects sampleEnv 7400 7 aliceLoggedIn
      { cookieRefreshToken := none, bodyRefreshToken := none }).1 rfl,
   (refresh_rejects sampleEnv 9000 7 aliceShort
      { cookieRefreshToken := none, bodyRefreshToken := some shortToken }).2.2.1
      _ _ (by decide) rfl rfl rfl rfl,
   ((refresh_rejects sampleEnv 7900 7 aliceRotated
      { cookieRefreshToken := some sessionToken, bodyRefreshToken := none }).2.1
      sessionToken rfl).2.2 _ _ rfl rfl (by decide)⟩

/-! ## The authorization gate -/

theorem verifyJWT_falsy {env : Env} {nowMs : Nat} {db : Store} {req : AuthRequest}
    (h : truthyToken (orToken req.cookieAccessToken
          (req.authorization.map bearerToken)) = false) :
    verifyJWT env nowMs db req = (.error (.apiError 401 "Unauthorized request"), db) := by
  unfold verifyJWT verifyAttempt
  cases hp : orToken req.cookieAccessToken (req.authorization.map bearerToken) with
  | none => simp [messageOr, Thrown.message, truthyString]
  | some t =>
    rw [hp] at h
    simp [h, messageOr, Thrown.message, truthyString]

theorem verifyJWT_truthy {env : Env} {nowMs : Nat} {db : Store} {req : AuthRequest}
    {t : Token}
    (hpres : orToken req.cookieAccessToken
      (req.authorization.map bearerToken) = some t)
    (htruthy : truthyToken (some t) = true) :
    verifyJWT env nowMs db req =
      match jwtVerify t env.ACCESS_TOKEN_SECRET nowMs with
      | .error e => (.error (.apiError 401 (messageOr e "Invalid access token")), db)
      | .ok p =>
        match findById db p._id with
        | none => (.error (.apiError 401 "Invalid Access Token"), db)
        | some u => (.ok (selectPublic u), db) := by
  unfold verifyJWT verifyAttempt
  cases hv : jwtVerify t env.ACCESS_TOKEN_SECRET nowMs with
  | error e => simp [hpres, htruthy, hv]
  | ok p =>
    cases hu : findById db p._id with
    | none => simp [hpres, htruthy, hv, hu, messageOr, Thrown.message, truthyString]
    | some u => simp [hpres, htruthy, hv, hu]

theorem orToken_falsy {a b : Option Token} :
    truthyToken (orToken a b) = false ↔ truthyToken a = false ∧ truthyToken b = false := by
  unfold orToken
  by_cases ha : truthyToken a = true
  · simp [ha]
  · simp [ha]

theorem verifyJWT_of_verify_error {env : Env} {nowMs : Nat} {req : AuthRequest}
    {t : Token} {e : Thrown} (db : Store)
    (hpres : orToken req.cookieAccessToken
      (req.authorization.map bearerToken) = some t)
    (he : jwtVerify t env.ACCESS_TOKEN_SECRET nowMs = .error e) :
    verifyJWT env nowMs db req
      = (.error (.apiError 401
          (if truthyToken (some t) = true then messageOr e "Invalid access token"
           else "Unauthorized request")), db) := by
  by_cases htruthy : truthyToken (some t) = true
  · rw [verifyJWT_truthy hpres htruthy, he]
    simp [htruthy]
  · rw [verifyJWT_falsy (by rw [hpres]; simpa using htruthy)]
    simp [htruthy]

theorem verifyJWT_accept_fields {env : Env} {nowMs : Nat} {db : Store} {req : AuthRequest}
    {t : Token} {p : Payload} {u : User}
    (hpres : orToken req.cookieAccessToken (req.authorization.map bearerToken) = some t)
    (hp : jwtVerify t env.ACCESS_TOKEN_SECRET nowMs = .ok p)
    (hu : findById db p._id = some u) :
    verifyJWT env nowMs db req
      = (.ok { _id := u._id, username := u.username, email := u.email,
               fullName := u.fullName, avatar := u.avatar, coverImage := u.coverImage,
               watchHistory := u.watchHistory, createdAt := u.createdAt,
               updatedAt := u.updatedAt }, db) := by
  rw [verifyJWT_truthy hpres (truthy_of_jwtVerify_ok hp), hp]
  simp [hu, selectPublic]

theorem bearerToken_falsy {req : AuthRequest}
    (h : ∀ header, req.authorization = some header → replaceBearer header = "") :
    truthyToken (req.authorization.map bearerToken) = false := by
  cases ha : req.authorization with
  | none => rfl
  | some header =>
    have := h header ha
    simp only [Option.map_some', bearerToken, this]
    rfl

/-- C6: `verifyJWT` passes a 401 error to `next` when the cookie `accessToken`
is not a non-empty token and the `Authorization` header is absent or empty
once its first `Bearer ` is removed, when the token fails verification under
the access secret, and when the id it carries has no record; in every other
case it attaches the record with that id, each of its fields but `password`
and `refreshToken` as stored, and calls `next` with no error; what it attaches
does not depend on the two fields left out.  The collection is never
changed. -/
theorem verifyJWT_gate (env : Env) (nowMs : Nat) (db : Store) (req : AuthRequest) :
    (truthyToken req.cookieAccessToken = false →
      (∀ header, req.authorization = some header → replaceBearer header = "") →
      verifyJWT env nowMs db req = (.error (.apiError 401 "Unauthorized request"), db)) ∧
    (∀ t, orToken req.cookieAccessToken
            (req.authorization.map bearerToken) = some t →
      (∀ e, jwtVerify t env.ACCESS_TOKEN_SECRET nowMs = .error e →
        ∃ m, verifyJWT env nowMs db req = (.error (.apiError 401 m), db)) ∧
      (∀ p, jwtVerify t env.ACCESS_TOKEN_SECRET nowMs = .ok p →
        findById db p._id = none →
        verifyJWT env nowMs db req = (.error (.apiError 401 "Invalid Access Token"), db)) ∧
      (∀ p u, jwtVerify t env.ACCESS_TOKEN_SECRET nowMs = .ok p →
        findById db p._id = some u →
        verifyJWT env nowMs db req
          = (.ok { _id := u._id, username := u.username, email := u.email,
                   fullName := u.fullName, avatar := u.avatar, coverImage := u.coverImage,
                   watchHistory := u.watchHistory, createdAt := u.createdAt,
                   updatedAt := u.updatedAt }, db) ∧
        u._id = p._id ∧
        ∀ (password : String) (refreshToken : Option Token),
          selectPublic { u with password := password, refreshToken := refreshToken }
            = selectPublic u)) ∧
    ((∃ m, verifyJWT env nowMs db req = (.error (.apiError 401 m), db)) ∨
     (∃ t p u, orToken req.cookieAccessToken
                 (req.authorization.map bearerToken) = some t ∧
        jwtVerify t env.ACCESS_TOKEN_SECRET nowMs = .ok p ∧
        findById db p._id = some u ∧
        verifyJWT env nowMs db req
          = (.ok { _id := u._id, username := u.username, email := u.email,
                   fullName := u.fullName, avatar := u.avatar, coverImage := u.coverImage,
                   watchHistory := u.watchHistory, createdAt := u.createdAt,
                   updatedAt := u.updatedAt }, db))) := by
  refine ⟨fun hc hh =>
    verifyJWT_falsy (orToken_falsy.mpr ⟨hc, bearerToken_falsy hh⟩), ?_, ?_⟩
  · intro t hpres
    refine ⟨fun e he => ⟨_, verifyJWT_of_verify_error db hpres he⟩, ?_, ?_⟩
    · intro p hp hnone
      rw [verifyJWT_truthy hpres (truthy_of_jwtVerify_ok hp), hp]
      simp [hnone]
    · intro p u hp hu
      exact ⟨verifyJWT_accept_fields hpres hp hu, findById_id hu, fun _ _ => rfl⟩
  · cases hpres : orToken req.cookieAccessToken
        (req.authorization.map bearerToken) with
    | none => exact Or.inl ⟨_, verifyJWT_falsy (by rw [hpres]; rfl)⟩
    | some t =>
      cases hv : jwtVerify t env.ACCESS_TOKEN_SECRET nowMs with
      | error e => exact Or.inl ⟨_, verifyJWT_of_verify_error db hpres hv⟩
      | ok p =>
        cases hu : findById db p._id with
        | none =>
          left
          refine ⟨"Invalid Access Token", ?_⟩
          rw [verifyJWT_truthy hpres (truthy_of_jwtVerify_ok hv), hv]
          simp [hu]
        | some u =>
          right
          exact ⟨t, p, u, rfl, hv, hu, verifyJWT_accept_fields hpres hv hu⟩

/-- C6, witness of `verifyJWT_gate`: a request with neither cookie nor header; a
header that is `Bearer ` and nothing else; the access token of alice in a
`Bearer` header at second 6; and that token with `Bearer ` standing inside its
text. -/
theorem verifyJWT_gate_witness :
    verifyJWT sampleEnv 6000 aliceLoggedIn { cookieAccessToken := none, authorization := none }
      = (.error (.apiError 401 "Unauthorized request"), aliceLoggedIn) ∧
    verifyJWT sampleEnv 6000 aliceLoggedIn
        { cookieAccessToken := none, authorization := some "Bearer " }
      = (.error (.apiError 401 "Unauthorized request"), aliceLoggedIn) ∧
    verifyJWT sampleEnv 6000 aliceLoggedIn (bearerRequest aliceAccess)
      = (.ok { _id := 1, username := "alice", email := "alice@x.com", fullName := "Alice",
               avatar := "a.png", coverImage := none, watchHistory := [],
               createdAt := 1000, updatedAt := 5000 },
         aliceLoggedIn) ∧
    verifyJWT sampleEnv 6000 aliceLoggedIn
        { cookieAccessToken := none, authorization := some bearerInside }
      = (.ok { _id := 1, username := "alice", email := "alice@x.com", fullName := "Alice",
               avatar := "a.png", coverImage := none, watchHistory := [],
               createdAt := 1000, updatedAt := 5000 },
         aliceLoggedIn) :=
  ⟨(verifyJWT_gate sampleEnv 6000 aliceLoggedIn
      { cookieAccessToken := none, authorization := none }).1 rfl
      (fun _ h => nomatch h),
   (verifyJWT_gate sampleEnv 6000 aliceLoggedIn
      { cookieAccessToken := none, authorization := some "Bearer " }).1 rfl
      (fun _ h => by cases h; rfl),
   (((verifyJWT_gate sampleEnv 6000 aliceLoggedIn (bearerRequest aliceAccess)).2.1
      aliceAccess rfl).2.2 _ aliceActive rfl rfl).1,
   (((verifyJWT_gate sampleEnv 6000 aliceLoggedIn
      { cookieAccessToken := none, authorization := some bearerInside }).2.1
      aliceAccess rfl).2.2 _ aliceActive rfl rfl).1⟩

/-! ## What a failed verification tells the caller -/

/-- C7 as stated fails: a malformed token, a token with a bad signature and an
expired token all fail verification, and `verifyJWT` answers each with a
different message, as does `refreshAccessToken`. -/
theorem verification_failures_differ :
    verifyJWT sampleEnv 6000 aliceLoggedIn (bearerRequest (.raw "garbage"))
      = (.error (.apiError 401 "jwt malformed"), aliceLoggedIn) ∧
    verifyJWT sampleEnv 6000 aliceLoggedIn (bearerRequest forgedAccess)
      = (.error (.apiError 401 "invalid signature"), aliceLoggedIn) ∧
    verifyJWT sampleEnv 905000 aliceLoggedIn (bearerRequest aliceAccess)
      = (.error (.apiError 401 "jwt expired"), aliceLoggedIn) ∧
    refreshAccessToken sampleEnv 9000 7 aliceShort (cookieRefresh (.raw "garbage"))
      = (.error (.apiError 401 "jwt malformed"), aliceShort) ∧
    refreshAccessToken sampleEnv 9000 7 aliceShort (cookieRefresh shortToken)
      = (.error (.apiError 401 "jwt expired"), aliceShort) := by
  refine ⟨?_, ?_, ?_, ?_, ?_⟩ <;> rfl

/-- C7, amended: any two presented tokens that fail verification are both
answered with an error of status 401, by `verifyJWT` and by
`refreshAccessToken`, and the collection is left as it is; the message is that
of the check that failed. -/
theorem verification_failures_same_status (env : Env) (nowMs salt : Nat) (db : Store)
    (t1 t2 : Token) (e1 e2 : Thrown) :
    (∀ (req1 req2 : AuthRequest),
      orToken req1.cookieAccessToken
        (req1.authorization.map bearerToken) = some t1 →
      orToken req2.cookieAccessToken
        (req2.authorization.map bearerToken) = some t2 →
      jwtVerify t1 env.ACCESS_TOKEN_SECRET nowMs = .error e1 →
      jwtVerify t2 env.ACCESS_TOKEN_SECRET nowMs = .error e2 →
      ∃ m1 m2,
        verifyJWT env nowMs db req1 = (.error (.apiError 401 m1), db) ∧
        verifyJWT env nowMs db req2 = (.error (.apiError 401 m2), db)) ∧
    (∀ (req1 req2 : RefreshRequest),
      orToken req1.cookieRefreshToken req1.bodyRefreshToken = some t1 →
      orToken req2.cookieRefreshToken req2.bodyRefreshToken = some t2 →
      jwtVerify t1 env.REFRESH_TOKEN_SECRET nowMs = .error e1 →
      jwtVerify t2 env.REFRESH_TOKEN_SECRET nowMs = .error e2 →
      ∃ m1 m2,
        refreshAccessToken env nowMs salt db req1 = (.error (.apiError 401 m1), db) ∧
        refreshAccessToken env nowMs salt db req2 = (.error (.apiError 401 m2), db)) := by
  constructor
  · intro req1 req2 h1 h2 he1 he2
    exact ⟨_, _, verifyJWT_of_verify_error db h1 he1, verifyJWT_of_verify_error db h2 he2⟩
  · intro req1 req2 h1 h2 he1 he2
    exact ⟨_, _, refresh_of_verify_error salt db h1 he1, refresh_of_verify_error salt db h2 he2⟩

/-- C7, witness of `verification_failures_same_status`: a malformed access token
and one with a bad signature. -/
theorem verification_failures_same_status_witness :
    ∃ m1 m2,
      verifyJWT sampleEnv 6000 aliceLoggedIn (bearerRequest (.raw "garbage"))
        = (.error (.apiError 401 m1), aliceLoggedIn) ∧
      verifyJWT sampleEnv 6000 aliceLoggedIn (bearerRequest forgedAccess)
        = (.error (.apiError 401 m2), aliceLoggedIn) :=
  (verification_failures_same_status sampleEnv 6000 7 aliceLoggedIn (.raw "garbage")
    forgedAccess (.error "jwt malformed") (.error "invalid signature")).1
    (bearerRequest (.raw "garbage")) (bearerRequest forgedAccess) rfl rfl rfl rfl

/-! ## Logout -/

/-- C8 as stated fails: the logout of alice at 9000 ms changes a field of her
record other than `refreshToken`, the timestamp `updatedAt`. -/
theorem logout_stamps_updatedAt :
    findById aliceLoggedIn 1 = some aliceActive ∧
    (logoutUser 9000 aliceLoggedIn (selectPublic aliceActive)).2
      = [{ aliceActive with refreshToken := none, updatedAt := 9000 }] ∧
    ({ aliceActive with refreshToken := none, updatedAt := 9000 } : User).updatedAt
      ≠ aliceActive.updatedAt := by
  refine ⟨rfl, rfl, by decide⟩

/-- C8, amended: a first logout and a second one right after it both answer
200 and clear the cookies `accessToken` and `refreshToken`; after each the
record of the user has no `refreshToken`, its `updatedAt` is the time of that
call and its other fields are as before; the record of every other id is as
before. -/
theorem logout_twice (now1 now2 : Nat) (db : Store) (reqUser : UserView) :
    (∃ r1 r2,
      (logoutUser now1 db reqUser).1 = .ok r1 ∧ r1.status = 200 ∧
      r1.cleared = ["accessToken", "refreshToken"] ∧
      (logoutUser now2 (logoutUser now1 db reqUser).2 reqUser).1 = .ok r2 ∧ r2.status = 200 ∧
      r2.cleared = ["accessToken", "refreshToken"]) ∧
    (∀ u, findById db reqUser._id = some u →
      findById (logoutUser now1 db reqUser).2 reqUser._id
        = some { u with refreshToken := none, updatedAt := now1 } ∧
      findById (logoutUser now2 (logoutUser now1 db reqUser).2 reqUser).2 reqUser._id
        = some { u with refreshToken := none, updatedAt := now2 }) ∧
    (findById db reqUser._id = none →
      (logoutUser now2 (logoutUser now1 db reqUser).2 reqUser).2 = db) ∧
    (∀ other, other ≠ reqUser._id →
      findById (logoutUser now1 db reqUser).2 other = findById db other ∧
      findById (logoutUser now2 (logoutUser now1 db reqUser).2 reqUser).2 other
        = findById db other) := by
  refine ⟨⟨_, _, rfl, rfl, rfl, rfl, rfl, rfl⟩, ?_, ?_, ?_⟩
  · intro u hu
    have hid := findById_id hu
    have h1 : findById (logoutUser now1 db reqUser).2 reqUser._id
        = some { u with refreshToken := none, updatedAt := now1 } :=
      findById_updateFirst_same _ hu (by simp [hid])
    have h2 := findById_updateFirst_same
      (fun d => { d with refreshToken := none, updatedAt := now2 }) h1 (by simp [hid])
    exact ⟨h1, h2⟩
  · intro hnone
    have h1 : (logoutUser now1 db reqUser).2 = db := findById_updateFirst_none _ hnone
    show updateFirst (logoutUser now1 db reqUser).2 reqUser._id _ = db
    rw [h1]
    exact findById_updateFirst_none _ hnone
  · intro other hne
    have h1 : findById (logoutUser now1 db reqUser).2 other = findById db other :=
      findById_updateFirst_other _ hne (fun d hd => by simp [hd])
    refine ⟨h1, ?_⟩
    rw [← h1]
    exact findById_updateFirst_other _ hne (fun d hd => by simp [hd])

/-- C8, witness of `logout_twice`: alice logs out at 9000 ms and again at 9500 ms,
with bob in the collection. -/
theorem logout_twice_witness :
    (findById (logoutUser 9000 [bob, aliceActive] (selectPublic aliceActive)).2 1
        = some { aliceActive with refreshToken := none, updatedAt := 9000 } ∧
      findById (logoutUser 9500 (logoutUser 9000 [bob, aliceActive]
          (selectPublic aliceActive)).2 (selectPublic aliceActive)).2 1
        = some { aliceActive with refreshToken := none, updatedAt := 9500 }) ∧
    (findById (logoutUser 9000 [bob, aliceActive] (selectPublic aliceActive)).2 2
        = findById [bob, aliceActive] 2 ∧
      findById (logoutUser 9500 (logoutUser 9000 [bob, aliceActive]
          (selectPublic aliceActive)).2 (selectPublic aliceActive)).2 2
        = findById [bob, aliceActive] 2) :=
  ⟨(logout_twice 9000 9500 [bob, aliceActive] (selectPublic aliceActive)).2.1
      aliceActive rfl,
   (logout_twice 9000 9500 [bob, aliceActive] (selectPublic aliceActive)).2.2.2
      2 (by decide)⟩

/-! ## Change of password -/

theorem preSave_password {u : User} {new : String} (hne : new ≠ u.password) (salt : Nat) :
    preSave u { u with password := new } salt
      = { u with password := bcryptHash new salt } := by
  simp [preSave, isModifiedPassword, hne]

theorem findById_save_password {db : Store} {id : ObjectId} {u : User} {new : String}
    (hu : findById db id = some u) (hne : new ≠ u.password) (salt nowMs : Nat) :
    findById (save db u { u with password := new } salt nowMs) id
      = some { u with password := bcryptHash new salt,
                      updatedAt := if bcryptHash new salt = u.password
                                   then u.updatedAt else nowMs } := by
  have hid := findById_id hu
  unfold save
  simp only [preSave_password hne]
  by_cases h : bcryptHash new salt = u.password
  · have : ({ u with password := bcryptHash new salt } : User) = u := by
      cases u; simp_all
    simp [this, h, hu]
  · have hneq : ({ u with password := bcryptHash new salt } : User) ≠ u := by
      intro hh; apply h; rw [← hh]
    simp only [hneq, if_false, h]
    rw [hid]
    exact findById_updateFirst_same _ hu (by simp [hid])

/-- C9 as stated fails: alice, whose old password is right, asks for a new
password that is the very string stored as her digest.  The assignment leaves
the path unmodified, the hook skips the hash, the answer is 200 and the stored
password is still the digest of the old one: it does not compare equal to the
new password, and a login with the new password fails with 401. -/
theorem change_to_stored_digest_keeps_old :
    bcryptCompare "secret1" alice.password = true ∧
    ((changeCurrentPassword 6000 4 [alice] (selectPublic alice) digestAsPassword).1.toOption.map
        Response.status = some 200) ∧
    (changeCurrentPassword 6000 4 [alice] (selectPublic alice) digestAsPassword).2 = [alice] ∧
    bcryptCompare alice.password alice.password = false ∧
    loginUser sampleEnv 7000 7 [alice]
        { email := none, username := some "alice", password := some alice.password }
      = (.error (.apiError 401 "Invalid user credentials"), [alice]) := by
  refine ⟨?_, ?_, ?_, ?_, ?_⟩ <;> rfl

/-- The claim C9 fails in a second way: bcrypt reads 72 bytes.  The old and the
new password of dave differ in their 73rd byte only; the change answers 200,
and a login with the old password still answers 200. -/
theorem old_password_survives_past_72_bytes :
    longOld ≠ longNew ∧
    ((changeCurrentPassword 6000 4 [dave] (selectPublic dave) longChange).1.toOption.map
        Response.status = some 200) ∧
    ((loginUser sampleEnv 7000 7
        (changeCurrentPassword 6000 4 [dave] (selectPublic dave) longChange).2
        { email := none, username := some "dave", password := some longOld }).1.toOption.map
        Response.status = some 200) := by
  refine ⟨by decide, ?_, ?_⟩ <;> rfl

/-- And in a third way: bcrypt reads a short key in a cycle.  The new password
of erin is her old one, a NUL, and her old one again; the change answers 200,
and a login with the old password still answers 200. -/
theorem old_password_survives_key_cycle :
    shortOld ≠ shortNew ∧
    (utf8Bytes shortOld).take 72 ≠ (utf8Bytes shortNew).take 72 ∧
    ((changeCurrentPassword 6000 4 [erin] (selectPublic erin) cycleChange).1.toOption.map
        Response.status = some 200) ∧
    ((loginUser sampleEnv 7000 7
        (changeCurrentPassword 6000 4 [erin] (selectPublic erin) cycleChange).2
        { email := none, username := some "erin", password := some shortOld }).1.toOption.map
        Response.status = some 200) := by
  refine ⟨by decide, by decide, ?_, ?_⟩ <;> rfl

/-- C9, amended: for an authenticated user whose record `u` exists,
`changeCurrentPassword` fails with 400 and changes nothing when the old
password does not compare equal to the stored hash; otherwise, when the new
password is not the very string stored as the hash, it answers 200, the stored
password becomes the hash of the new password, which the new password compares
equal to and the old one does not when neither has a NUL in it and the two
differ within the first 72 bytes of their UTF-8 encoding, and the
`refreshToken` of the record is untouched; a later login that resolves to the
record succeeds with the new password and fails with 401 with the old one when
neither has a NUL in it and the two differ within those 72 bytes. -/
theorem change_password [CaseMapping] (nowMs salt : Nat) (db : Store) (reqUser : UserView)
    (body : PasswordBody) (u : User) (old new : String)
    (hu : findById db reqUser._id = some u)
    (hold : body.oldPassword = some old) (hnew : body.newPassword = some new) :
    (bcryptCompare old u.password = false →
      changeCurrentPassword nowMs salt db reqUser body
        = (.error (.apiError 400 "Invalid old password"), db)) ∧
    (bcryptCompare old u.password = true → new ≠ u.password →
      ∃ (res : Response) (db1 : Store) (u1 : User),
        changeCurrentPassword nowMs salt db reqUser body = (.ok res, db1) ∧
        res.status = 200 ∧
        findById db1 reqUser._id = some u1 ∧
        u1.password = bcryptHash new salt ∧
        bcryptCompare new u1.password = true ∧
        ((0 : UInt8) ∉ utf8Bytes old → (0 : UInt8) ∉ utf8Bytes new →
          (utf8Bytes old).take 72 ≠ (utf8Bytes new).take 72 →
          bcryptCompare old u1.password = false) ∧
        u1.refreshToken = u.refreshToken ∧
        (∀ (env : Env) (now2 salt2 : Nat) (login : LoginBody),
          env.ACCESS_TOKEN_SECRET ≠ "" → env.REFRESH_TOKEN_SECRET ≠ "" →
          (truthyOpt login.username = true ∨ truthyOpt login.email = true) →
          findOne db1 login.username login.email = some u1 →
          (login.password = some new →
            ∃ res2 db2, loginUser env now2 salt2 db1 login = (.ok res2, db2)
              ∧ res2.status = 200) ∧
          ((0 : UInt8) ∉ utf8Bytes old → (0 : UInt8) ∉ utf8Bytes new →
            (utf8Bytes old).take 72 ≠ (utf8Bytes new).take 72 → login.password = some old →
            loginUser env now2 salt2 db1 login
              = (.error (.apiError 401 "Invalid user credentials"), db1)))) := by
  constructor
  · intro hcmp
    simp [changeCurrentPassword, hu, hold, isPasswordCorrect, hcmp]
  · intro hcmp hne
    have hfind := findById_save_password hu hne salt nowMs
    have hnewcmp : bcryptCompare new (bcryptHash new salt) = true := bcryptCompare_self new salt
    have holdcmp : (0 : UInt8) ∉ utf8Bytes old → (0 : UInt8) ∉ utf8Bytes new →
        (utf8Bytes old).take 72 ≠ (utf8Bytes new).take 72 →
        bcryptCompare old (bcryptHash new salt) = false := by
      intro h0 h1 h
      have h2 : ¬ bcryptInput old = bcryptInput new :=
        fun heq => h (take_eq_of_bcryptInput_eq h0 h1 heq)
      simp [bcryptCompare_bcryptHash, h2]
    have hrun : changeCurrentPassword nowMs salt db reqUser body
        = (.ok { status := 200, cookies := [], cleared := [],
                 json := ApiResponse.new 200 .empty "Password changed successfully" },
           save db u { u with password := new } salt nowMs) := by
      simp [changeCurrentPassword, hu, hold, hnew, isPasswordCorrect, hcmp]
    refine ⟨_, _, _, hrun, rfl, hfind, rfl, hnewcmp, holdcmp, rfl, ?_⟩
    intro env now2 salt2 login hA hR hguard hlogin
    constructor
    · intro hpw
      obtain ⟨u0, acc, ref, _, _, _, h⟩ :=
        login_accept now2 salt2 hguard hlogin hpw hnewcmp hA hR
      exact ⟨_, _, h, rfl⟩
    · intro h0 h1 hdiff hpw
      exact login_wrong_password env now2 salt2 hguard hlogin hpw (holdcmp h0 h1 hdiff)

/-- C9, witness of `change_password`: alice changes `secret1` to `secret2`,
which have no NUL in them and differ in their seventh byte, and a change with a
wrong old password is refused. -/
theorem change_password_witness :
    (0 : UInt8) ∉ utf8Bytes "secret1" ∧ (0 : UInt8) ∉ utf8Bytes "secret2" ∧
    (utf8Bytes "secret1").take 72 ≠ (utf8Bytes "secret2").take 72 ∧
    changeCurrentPassword 6000 4 [alice] (selectPublic alice) wrongOld
      = (.error (.apiError 400 "Invalid old password"), [alice]) ∧
    ∃ (res : Response) (db1 : Store) (u1 : User),
      changeCurrentPassword 6000 4 [alice] (selectPublic alice) toSecret2 = (.ok res, db1) ∧
      res.status = 200 ∧
      findById db1 (selectPublic alice)._id = some u1 ∧
      u1.password = bcryptHash "secret2" 4 ∧
      bcryptCompare "secret2" u1.password = true ∧
      ((0 : UInt8) ∉ utf8Bytes "secret1" → (0 : UInt8) ∉ utf8Bytes "secret2" →
        (utf8Bytes "secret1").take 72 ≠ (utf8Bytes "secret2").take 72 →
        bcryptCompare "secret1" u1.password = false) ∧
      u1.refreshToken = alice.refreshToken ∧
      (∀ (env : Env) (now2 salt2 : Nat) (login : LoginBody),
        env.ACCESS_TOKEN_SECRET ≠ "" → env.REFRESH_TOKEN_SECRET ≠ "" →
        (truthyOpt login.username = true ∨ truthyOpt login.email = true) →
        findOne db1 login.username login.email = some u1 →
        (login.password = some "secret2" →
          ∃ res2 db2, loginUser env now2 salt2 db1 login = (.ok res2, db2)
            ∧ res2.status = 200) ∧
        ((0 : UInt8) ∉ utf8Bytes "secret1" → (0 : UInt8) ∉ utf8Bytes "secret2" →
          (utf8Bytes "secret1").take 72 ≠ (utf8Bytes "secret2").take 72 →
          login.password = some "secret1" →
          loginUser env now2 salt2 db1 login
            = (.error (.apiError 401 "Invalid user credentials"), db1))) :=
  ⟨by decide, by decide, by decide,
   (change_password 6000 4 [alice] (selectPublic alice) wrongOld alice "guess" "secret2"
      rfl rfl rfl).1 rfl,
   (change_password 6000 4 [alice] (selectPublic alice) toSecret2 alice "secret1" "secret2"
      rfl rfl rfl).2 rfl (by decide)⟩

/-! ## Errors on their way to the boundary -/

theorem refresh_of_generate_error {env : Env} {nowMs salt : Nat} {db : Store}
    {req : RefreshRequest} {T : Token} {p : Payload} {u : User} {e : Thrown}
    (hpres : orToken req.cookieRefreshToken req.bodyRefreshToken = some T)
    (hp : jwtVerify T env.REFRESH_TOKEN_SECRET nowMs = .ok p)
    (hu : findById db p._id = some u) (hstored : u.refreshToken = some T)
    (hgen : (generateAccessAndRefereshTokens env nowMs salt db u._id).1 = .error e) :
    e = .apiError 500 "Something went wrong while generating refresh and access token" ∧
    refreshAccessToken env nowMs salt db req
      = (.error (.apiError 401
          "Something went wrong while generating refresh and access token"), db) := by
  cases hg : generateAccessAndRefereshTokens env nowMs salt db u._id with
  | mk r d =>
    rw [hg] at hgen
    simp only at hgen
    subst hgen
    obtain ⟨he, hd⟩ := generate_error hg
    subst he hd
    refine ⟨rfl, ?_⟩
    rw [refresh_unfold_truthy hpres (truthy_of_jwtVerify_ok hp)]
    simp [refreshAttempt, hp, hu, hstored, hg, messageOr, Thrown.message, truthyString]

theorem login_of_generate_error [CaseMapping] {env : Env} {nowMs salt : Nat} {db : Store}
    {body : LoginBody} {u : User} {pw : String} {e : Thrown}
    (hguard : truthyOpt body.username = true ∨ truthyOpt body.email = true)
    (hfind : findOne db body.username body.email = some u)
    (hpw : body.password = some pw) (hcmp : bcryptCompare pw u.password = true)
    (hgen : (generateAccessAndRefereshTokens env nowMs salt db u._id).1 = .error e) :
    loginUser env nowMs salt db body = (.error e, db) := by
  cases hg : generateAccessAndRefereshTokens env nowMs salt db u._id with
  | mk r d =>
    rw [hg] at hgen
    simp only at hgen
    subst hgen
    obtain ⟨_, hd⟩ := generate_error hg
    subst hd
    unfold loginUser
    simp [login_guard_passes hguard, hfind, hpw, isPasswordCorrect, hcmp, hg]

theorem refresh_error_is_401 {env : Env} {nowMs salt : Nat} {db db1 : Store}
    {req : RefreshRequest} {e : Thrown}
    (h : refreshAccessToken env nowMs salt db req = (.error e, db1)) :
    ∃ m, e = .apiError 401 m := by
  unfold refreshAccessToken at h
  simp only [] at h
  split at h
  · cases h; exact ⟨_, rfl⟩
  · split at h
    · cases h; exact ⟨_, rfl⟩
    · split at h
      · cases h
      · cases h; exact ⟨_, rfl⟩

theorem verifyJWT_error_is_401 {env : Env} {nowMs : Nat} {db db1 : Store}
    {req : AuthRequest} {e : Thrown}
    (h : verifyJWT env nowMs db req = (.error e, db1)) :
    ∃ m, e = .apiError 401 m := by
  unfold verifyJWT at h
  split at h
  · cases h
  · cases h; exact ⟨_, rfl⟩

theorem asyncHandler_eq_some {α : Type} {settled : Except Thrown α × Store} {e : Thrown}
    (h : asyncHandler settled = some e) : settled = (.error e, settled.2) := by
  obtain ⟨r, d⟩ := settled
  cases r with
  | ok v => simp [asyncHandler] at h
  | error err =>
    simp only [asyncHandler, Option.some.injEq] at h
    subst h; rfl

/-- The failing input of C11: alice presents her valid session token, which is
the one her record holds, while the access secret is not set.  Token issuance
fails inside `generateAccessAndRefereshTokens` with the 500 error, and what
`refreshAccessToken` delivers to `next` is a 401 with the message of that
error. -/
theorem refresh_rewraps_internal_error :
    jwtVerify sessionToken noAccessSecretEnv.REFRESH_TOKEN_SECRET 7400
      = .ok { _id := 1, email := none, username := none, fullName := none,
              iat := 5, exp := 864005 } ∧
    findById aliceLoggedIn 1 = some aliceActive ∧
    aliceActive.refreshToken = some sessionToken ∧
    (generateAccessAndRefereshTokens noAccessSecretEnv 7400 7 aliceLoggedIn 1).1
      = .error (.apiError 500
          "Something went wrong while generating refresh and access token") ∧
    asyncHandler (refreshAccessToken noAccessSecretEnv 7400 7 aliceLoggedIn
        (cookieRefresh sessionToken))
      = some (.apiError 401
          "Something went wrong while generating refresh and access token") := by
  refine ⟨?_, ?_, ?_, ?_, ?_⟩ <;> rfl

/-- C11 fails on the code: `asyncHandler` passes the rejection of a handler to
`next` as it is, and `loginUser` delivers the 500 error that
`generateAccessAndRefereshTokens` raises unchanged; but the `catch` of
`refreshAccessToken`, like that of `verifyJWT`, turns whatever is thrown inside
its `try` block into a 401 with the message of the error caught.  So when
`refreshAccessToken` is called with a valid session token equal to the stored
value and `generateAccessAndRefereshTokens` fails, the error that function
raises is the 500 error and the error delivered to `next` is a 401 with the
message of that error, where the claim says the 500 error; the store is
unchanged. -/
theorem errors_at_boundary [CaseMapping] (env : Env) (nowMs salt : Nat) (db : Store) :
    (∀ (settled : Except Thrown Response × Store) (e : Thrown),
      settled.1 = .error e → asyncHandler settled = some e) ∧
    (∀ (req : RefreshRequest) (e : Thrown),
      asyncHandler (refreshAccessToken env nowMs salt db req) = some e →
      e.statusCode = some 401) ∧
    (∀ (req : AuthRequest) (e : Thrown),
      asyncHandler (verifyJWT env nowMs db req) = some e → e.statusCode = some 401) ∧
    (∀ (req : RefreshRequest) (T : Token) (p : Payload) (u : User) (e : Thrown),
      orToken req.cookieRefreshToken req.bodyRefreshToken = some T →
      jwtVerify T env.REFRESH_TOKEN_SECRET nowMs = .ok p →
      findById db p._id = some u → u.refreshToken = some T →
      (generateAccessAndRefereshTokens env nowMs salt db u._id).1 = .error e →
      e.statusCode = some 500 ∧
      asyncHandler (refreshAccessToken env nowMs salt db req)
        = some (.apiError 401 e.message) ∧
      (refreshAccessToken env nowMs salt db req).2 = db) ∧
    (∀ (body : LoginBody) (u : User) (pw : String) (e : Thrown),
      (truthyOpt body.username = true ∨ truthyOpt body.email = true) →
      findOne db body.username body.email = some u →
      body.password = some pw → bcryptCompare pw u.password = true →
      (generateAccessAndRefereshTokens env nowMs salt db u._id).1 = .error e →
      e.statusCode = some 500 ∧
      asyncHandler (loginUser env nowMs salt db body) = some e ∧
      (loginUser env nowMs salt db body).2 = db) := by
  refine ⟨?_, ?_, ?_, ?_, ?_⟩
  · intro settled e h
    simp [asyncHandler, h]
  · intro req e h
    obtain ⟨m, hm⟩ := refresh_error_is_401 (asyncHandler_eq_some h)
    rw [hm]; rfl
  · intro req e h
    obtain ⟨m, hm⟩ := verifyJWT_error_is_401 (asyncHandler_eq_some h)
    rw [hm]; rfl
  · intro req T p u e hpres hp hu hstored hgen
    obtain ⟨he, hrun⟩ := refresh_of_generate_error hpres hp hu hstored hgen
    rw [hrun, he]
    exact ⟨rfl, rfl, rfl⟩
  · intro body u pw e hguard hfind hpw hcmp hgen
    have hrun := login_of_generate_error hguard hfind hpw hcmp hgen
    obtain ⟨he, _⟩ : e = .apiError 500
        "Something went wrong while generating refresh and access token" ∧ True := by
      cases hg : generateAccessAndRefereshTokens env nowMs salt db u._id with
      | mk r d =>
        rw [hg] at hgen
        simp only at hgen
        subst hgen
        exact ⟨(generate_error hg).1, trivial⟩
    rw [hrun, he]
    exact ⟨rfl, rfl, rfl⟩

/-- C11, witness of `errors_at_boundary`: the refresh of alice and her login
while the access secret is not set. -/
theorem errors_at_boundary_witness :
    asyncHandler (refreshAccessToken noAccessSecretEnv 7400 7 aliceLoggedIn
        (cookieRefresh sessionToken))
      = some (.apiError 401
          "Something went wrong while generating refresh and access token") ∧
    asyncHandler (loginUser noAccessSecretEnv 5000 7 [alice] aliceLogin)
      = some (.apiError 500
          "Something went wrong while generating refresh and access token") :=
  ⟨((errors_at_boundary noAccessSecretEnv 7400 7 aliceLoggedIn).2.2.2.1
      (cookieRefresh sessionToken) sessionToken _ aliceActive
      (.apiError 500 "Something went wrong while generating refresh and access token")
      rfl rfl rfl rfl rfl).2.1,
   ((errors_at_boundary noAccessSecretEnv 5000 7 [alice]).2.2.2.2
      aliceLogin alice "secret1"
      (.apiError 500 "Something went wrong while generating refresh and access token")
      (Or.inl rfl) rfl rfl rfl rfl).2.1⟩

/-! ## Replay across token types -/

theorem jwtVerify_other_key (p : Payload) {key secret : String} (hne : key ≠ secret)
    (nowMs : Nat) :
    ∃ e, jwtVerify (.jwt p key) secret nowMs = .error e := by
  unfold jwtVerify
  by_cases hs : truthyString secret = true
  · exact ⟨.error "invalid signature", by simp [hs, hne]⟩
  · exact ⟨.error "secret or public key must be provided", by simp [hs]⟩

/-- C12: when the access secret and the refresh secret differ, every token
that `generateAccessToken` produces is rejected with 401 by
`refreshAccessToken`, and every token that `generateRefreshToken` produces is
rejected with 401 by `verifyJWT`, at every time, for every collection and
whether the token comes in the cookie, the body or the header. -/
theorem no_cross_type_replay (env : Env) (issuedAt : Nat) (user : User) (t : Token)
    (hdistinct : env.ACCESS_TOKEN_SECRET ≠ env.REFRESH_TOKEN_SECRET) :
    (generateAccessToken env issuedAt user = .ok t →
      ∀ (nowMs salt : Nat) (db : Store) (req : RefreshRequest),
        orToken req.cookieRefreshToken req.bodyRefreshToken = some t →
        ∃ m, refreshAccessToken env nowMs salt db req = (.error (.apiError 401 m), db)) ∧
    (generateRefreshToken env issuedAt user = .ok t →
      ∀ (nowMs : Nat) (db : Store) (req : AuthRequest),
        orToken req.cookieAccessToken
          (req.authorization.map bearerToken) = some t →
        ∃ m, verifyJWT env nowMs db req = (.error (.apiError 401 m), db)) := by
  constructor
  · intro hgen nowMs salt db req hpres
    obtain ⟨_, ht⟩ := jwtSign_inv hgen
    obtain ⟨e, he⟩ := jwtVerify_other_key
      { _id := user._id, email := some user.email, username := some user.username,
        fullName := some user.fullName, iat := clockTimestamp issuedAt,
        exp := clockTimestamp issuedAt + env.ACCESS_TOKEN_EXPIRY } hdistinct nowMs
    rw [← ht] at he
    exact ⟨_, refresh_of_verify_error salt db hpres he⟩
  · intro hgen nowMs db req hpres
    obtain ⟨_, ht⟩ := jwtSign_inv hgen
    obtain ⟨e, he⟩ := jwtVerify_other_key
      { _id := user._id, email := none, username := none, fullName := none,
        iat := clockTimestamp issuedAt,
        exp := clockTimestamp issuedAt + env.REFRESH_TOKEN_EXPIRY }
      (Ne.symm hdistinct) nowMs
    rw [← ht] at he
    exact ⟨_, verifyJWT_of_verify_error db hpres he⟩

/-- C12, witness of `no_cross_type_replay`: the access token of alice presented
for a refresh, and her session token presented in a `Bearer` header. -/
theorem no_cross_type_replay_witness :
    (∃ m, refreshAccessToken sampleEnv 6000 7 aliceLoggedIn (cookieRefresh aliceAccess)
        = (.error (.apiError 401 m), aliceLoggedIn)) ∧
    (∃ m, verifyJWT sampleEnv 6000 aliceLoggedIn (bearerRequest sessionToken)
        = (.error (.apiError 401 m), aliceLoggedIn)) :=
  ⟨(no_cross_type_replay sampleEnv 5000 alice aliceAccess (by decide)).1 rfl
      6000 7 aliceLoggedIn (cookieRefresh aliceAccess) rfl,
   (no_cross_type_replay sampleEnv 5000 alice sessionToken (by decide)).2 rfl
      6000 aliceLoggedIn (bearerRequest sessionToken) rfl⟩

/-! ## The gate and the stored session token -/

theorem verifyJWT_store (env : Env) (nowMs : Nat) (db : Store) (req : AuthRequest) :
    (verifyJWT env nowMs db req).2 = db := by
  unfold verifyJWT
  split <;> rfl

theorem findById_map {db : Store} (g : User → User) (hg : ∀ d, (g d)._id = d._id)
    (id : ObjectId) : findById (db.map g) id = (findById db id).map g := by
  induction db with
  | nil => rfl
  | cons d rest ih =>
    by_cases hd : d._id = id
    · simp [findById_cons, hd, hg]
    · simp [findById_cons, hd, hg, ih]

theorem verifyAttempt_map_refreshToken (env : Env) (nowMs : Nat) (db : Store)
    (req : AuthRequest) (f : User → Option Token) :
    verifyAttempt env nowMs (db.map (fun d => { d with refreshToken := f d })) req
      = verifyAttempt env nowMs db req := by
  unfold verifyAttempt
  simp only [findById_map (fun d => { d with refreshToken := f d }) (fun _ => rfl)]
  split
  · rfl
  · split
    · rfl
    · split
      · rfl
      · next p _ =>
        cases findById db p._id with
        | none => rfl
        | some u => rfl

theorem verifyJWT_accept {env : Env} {nowMs : Nat} {db : Store} {req : AuthRequest}
    {t : Token} {p : Payload} {u : User}
    (hpres : orToken req.cookieAccessToken
      (req.authorization.map bearerToken) = some t)
    (hp : jwtVerify t env.ACCESS_TOKEN_SECRET nowMs = .ok p)
    (hu : findById db p._id = some u) :
    verifyJWT env nowMs db req = (.ok (selectPublic u), db) := by
  rw [verifyJWT_truthy hpres (truthy_of_jwtVerify_ok hp), hp]
  simp [hu]

theorem findById_updateFirst_some {db : Store} {id other : ObjectId} {u : User}
    (f : User → User) (hf : ∀ d, d._id = id → (f d)._id = id)
    (h : findById db other = some u) :
    ∃ v, findById (updateFirst db id f) other = some v := by
  by_cases ho : other = id
  · subst ho
    exact ⟨f u, findById_updateFirst_same f h (hf u (findById_id h))⟩
  · exact ⟨u, by rw [findById_updateFirst_other f ho hf, h]⟩

theorem findById_save_some {db : Store} {stored doc : User} {other : ObjectId} {u : User}
    (salt nowMs : Nat) (hdoc : doc._id = stored._id)
    (h : findById db other = some u) :
    ∃ v, findById (save db stored doc salt nowMs) other = some v := by
  have hpre : (preSave stored doc salt)._id = stored._id := by
    unfold preSave; split <;> simp [hdoc]
  unfold save
  simp only []
  split
  · exact ⟨u, h⟩
  · exact findById_updateFirst_some _ (fun d _ => by simp [hpre]) h

theorem gate_accepts_after {env : Env} {nowMs : Nat} {db : Store} {req : AuthRequest}
    {acc : Token} {p : Payload} {u : User}
    (hpres : orToken req.cookieAccessToken
      (req.authorization.map bearerToken) = some acc)
    (hp : jwtVerify acc env.ACCESS_TOKEN_SECRET nowMs = .ok p)
    (hu : findById db p._id = some u) :
    (∀ (now2 : Nat) (reqUser : UserView),
      ∃ v, verifyJWT env nowMs (logoutUser now2 db reqUser).2 req
        = (.ok v, (logoutUser now2 db reqUser).2)) ∧
    (∀ (now2 salt2 : Nat) (rreq : RefreshRequest) (r2 : Response) (db2 : Store),
      refreshAccessToken env now2 salt2 db rreq = (.ok r2, db2) →
      ∃ v, verifyJWT env nowMs db2 req = (.ok v, db2)) := by
  constructor
  · intro now2 reqUser
    obtain ⟨v, hv⟩ := @findById_updateFirst_some db reqUser._id p._id u
      (fun d => { d with refreshToken := none, updatedAt := now2 })
      (fun d hd => by simp [hd]) hu
    exact ⟨_, verifyJWT_accept hpres hp hv⟩
  · intro now2 salt2 rreq r2 db2 hok
    obtain ⟨t, _, hatt⟩ := refresh_ok_inv hok
    obtain ⟨_, w, pair, _, _, _, hgen, _⟩ := refreshAttempt_ok_inv hatt
    obtain ⟨u0, _, _, _, hdb2⟩ := generate_inv hgen
    obtain ⟨v, hv⟩ := @findById_save_some db u0
      { u0 with refreshToken := some pair.refreshToken } p._id u salt2 now2 rfl hu
    rw [← hdb2] at hv
    exact ⟨_, verifyJWT_accept hpres hp hv⟩

/-- C15: `verifyJWT` leaves the collection as it is on every input; its outcome
is the same when the `refreshToken` fields of the records are replaced by any
other values; and the access token a login returned is, until its expiry,
still accepted after any `logoutUser` and after any successful
`refreshAccessToken` that followed the login. -/
theorem gate_ignores_session_token [CaseMapping] (env : Env) (db : Store) :
    (∀ (nowMs : Nat) (req : AuthRequest), (verifyJWT env nowMs db req).2 = db) ∧
    (∀ (nowMs : Nat) (req : AuthRequest) (f : User → Option Token),
      (verifyJWT env nowMs (db.map (fun d => { d with refreshToken := f d })) req).1
        = (verifyJWT env nowMs db req).1) ∧
    (∀ (now0 salt : Nat) (body : LoginBody) (u : User) (pw : String),
      (truthyOpt body.username = true ∨ truthyOpt body.email = true) →
      findOne db body.username body.email = some u →
      body.password = some pw → bcryptCompare pw u.password = true →
      env.ACCESS_TOKEN_SECRET ≠ "" → env.REFRESH_TOKEN_SECRET ≠ "" →
      ∃ (res : Response) (db1 : Store) (acc : Token) (p : Payload)
          (view : Option UserView) (ref : Option Token),
        loginUser env now0 salt db body = (.ok res, db1) ∧
        res.json.data = .session view (some acc) ref ∧
        acc = .jwt p env.ACCESS_TOKEN_SECRET ∧
        ∀ (now3 : Nat) (req : AuthRequest),
          clockTimestamp now3 < p.exp →
          orToken req.cookieAccessToken
            (req.authorization.map bearerToken) = some acc →
          (∀ (now2 : Nat) (reqUser : UserView),
            ∃ w, verifyJWT env now3 (logoutUser now2 db1 reqUser).2 req
              = (.ok w, (logoutUser now2 db1 reqUser).2)) ∧
          (∀ (now2 salt2 : Nat) (rreq : RefreshRequest) (r2 : Response) (db2 : Store),
            refreshAccessToken env now2 salt2 db1 rreq = (.ok r2, db2) →
            ∃ w, verifyJWT env now3 db2 req = (.ok w, db2))) := by
  refine ⟨fun nowMs req => verifyJWT_store env nowMs db req, ?_, ?_⟩
  · intro nowMs req f
    unfold verifyJWT
    rw [verifyAttempt_map_refreshToken]
    split <;> rfl
  · intro now0 salt body u pw hguard hfind hpw hcmp hA hR
    obtain ⟨u0, acc, ref, hu0, hacc, _, hlogin⟩ :=
      login_accept now0 salt hguard hfind hpw hcmp hA hR
    obtain ⟨_, hjwt⟩ := jwtSign_inv hacc
    refine ⟨_, _, acc, _, _, _, hlogin, rfl, hjwt, ?_⟩
    intro now3 req hlt hpres
    have hp := jwtVerify_ok hA
      { _id := u0._id, email := some u0.email, username := some u0.username,
        fullName := some u0.fullName, iat := clockTimestamp now0,
        exp := clockTimestamp now0 + env.ACCESS_TOKEN_EXPIRY } hlt
    rw [← hjwt] at hp
    have hrec := findById_save_refreshToken (findById_id hu0 ▸ hu0) ref salt now0
    exact gate_accepts_after hpres hp hrec

/-- C15, witness of `gate_ignores_session_token`: alice logs in at 5000 ms; her
access token is accepted at second 8 after her logout at 7000 ms, and after her
refresh at 7400 ms. -/
theorem gate_ignores_session_token_witness :
    (∃ w, verifyJWT sampleEnv 8000
        (logoutUser 7000 aliceLoggedIn (selectPublic aliceActive)).2 (bearerRequest aliceAccess)
      = (.ok w, (logoutUser 7000 aliceLoggedIn (selectPublic aliceActive)).2)) ∧
    (∃ w, verifyJWT sampleEnv 8000 aliceRotated (bearerRequest aliceAccess)
      = (.ok w, aliceRotated)) := by
  obtain ⟨res, db1, acc, p, view, ref, hlogin, hdata, hacc, hafter⟩ :=
    (gate_ignores_session_token sampleEnv [alice]).2.2 5000 7 aliceLogin alice "secret1"
      (Or.inl rfl) rfl rfl rfl (by decide) (by decide)
  have hrun : loginUser sampleEnv 5000 7 [alice] aliceLogin
      = (.ok { status := 200,
               cookies := [setCookie "refreshToken" (some sessionToken),
                           setCookie "accessToken" (some aliceAccess)],
               cleared := [],
               json := ApiResponse.new 200
                 (.session (some (selectPublic aliceActive)) (some aliceAccess)
                   (some sessionToken)) "User logged In Successfully" },
         aliceLoggedIn) := rfl
  rw [hrun] at hlogin
  injection hlogin with h1 h2
  injection h1 with h1
  subst h1 h2
  have hacc2 : acc = aliceAccess := by
    simp only [ApiResponse.new] at hdata
    injection hdata with _ h _
    exact (Option.some.inj h).symm
  subst hacc2
  have hp : p.exp = 905 := by
    unfold aliceAccess at hacc
    injection hacc with h _
    rw [← h]
  obtain ⟨hlogout, hrefresh⟩ := hafter 8000 (bearerRequest aliceAccess)
    (by rw [hp]; decide) rfl
  exact ⟨hlogout 7000 (selectPublic aliceActive),
    hrefresh 7400 7 (cookieRefresh sessionToken) _ aliceRotated rfl⟩

/-! ## The stored hash under saves that do not touch the password -/

theorem updateFirst_map_of_first {β : Type} {db : Store} {id : ObjectId} {u : User}
    (g : User → β) (f : User → User)
    (hu : findById db id = some u) (hg : g (f u) = g u) :
    (updateFirst db id f).map g = db.map g := by
  induction db with
  | nil => rfl
  | cons d rest ih =>
    by_cases hd : d._id = id
    · have hdu : d = u := by simpa [findById_cons, hd] using hu
      subst hdu
      simp [updateFirst_cons, hd, hg]
    · have hrest : findById rest id = some u := by simpa [findById_cons, hd] using hu
      simp [updateFirst_cons, hd, ih hrest]

theorem updateFirst_map_of_all {β : Type} (db : Store) (id : ObjectId)
    (g : User → β) (f : User → User) (hg : ∀ d, g (f d) = g d) :
    (updateFirst db id f).map g = db.map g := by
  induction db with
  | nil => rfl
  | cons d rest ih =>
    by_cases hd : d._id = id
    · simp [updateFirst_cons, hd, hg]
    · simp [updateFirst_cons, hd, ih]

theorem save_refreshToken_keeps {db : Store} {u : User}
    (hu : findById db u._id = some u) (rt : Option Token) (salt nowMs : Nat) :
    (save db u { u with refreshToken := rt } salt nowMs).map (fun d => (d._id, d.password))
      = db.map (fun d => (d._id, d.password)) := by
  unfold save
  simp only [preSave_refreshToken]
  split
  · rfl
  · exact updateFirst_map_of_first _ _ hu rfl

theorem generate_keeps (env : Env) (nowMs salt : Nat) (db : Store) (id : ObjectId) :
    (generateAccessAndRefereshTokens env nowMs salt db id).2.map (fun d => (d._id, d.password))
      = db.map (fun d => (d._id, d.password)) := by
  cases hg : generateAccessAndRefereshTokens env nowMs salt db id with
  | mk r db1 =>
    cases r with
    | error e => rw [(generate_error hg).2]
    | ok pair =>
      obtain ⟨u, hu, _, _, hdb1⟩ := generate_inv hg
      have hid := findById_id hu
      subst hid
      simp only [hdb1]
      exact save_refreshToken_keeps hu _ salt nowMs

theorem login_store [CaseMapping] (env : Env) (nowMs salt : Nat) (db : Store) (body : LoginBody) :
    (loginUser env nowMs salt db body).2 = db ∨
    ∃ id, (loginUser env nowMs salt db body).2
      = (generateAccessAndRefereshTokens env nowMs salt db id).2 := by
  unfold loginUser
  split
  · exact Or.inl rfl
  · split
    · exact Or.inl rfl
    · next user _ =>
      split
      · exact Or.inl rfl
      · exact Or.inl rfl
      · right
        refine ⟨user._id, ?_⟩
        split <;> simp_all

theorem refresh_store (env : Env) (nowMs salt : Nat) (db : Store) (req : RefreshRequest) :
    (refreshAccessToken env nowMs salt db req).2 = db ∨
    ∃ id, (refreshAccessToken env nowMs salt db req).2
      = (generateAccessAndRefereshTokens env nowMs salt db id).2 := by
  cases hr : refreshAccessToken env nowMs salt db req with
  | mk r db1 =>
    cases r with
    | error e =>
      left
      unfold refreshAccessToken at hr
      simp only [] at hr
      split at hr
      · cases hr; rfl
      · split at hr
        · cases hr; rfl
        · split at hr
          · cases hr
          · next e1 d1 hatt =>
            cases hr
            exact refreshAttempt_error hatt
    | ok res =>
      right
      obtain ⟨t, _, hatt⟩ := refresh_ok_inv hr
      obtain ⟨_, u, pair, _, _, _, hgen, _⟩ := refreshAttempt_ok_inv hatt
      exact ⟨u._id, by rw [hgen]⟩

theorem findById_of_keys {db1 db : Store}
    (hkeys : db1.map (fun d => (d._id, d.password)) = db.map (fun d => (d._id, d.password)))
    {id : ObjectId} {u : User} (hu : findById db id = some u) :
    ∃ u1, findById db1 id = some u1 ∧ u1.password = u.password := by
  induction db generalizing db1 with
  | nil => simp [findById] at hu
  | cons d rest ih =>
    cases db1 with
    | nil => simp at hkeys
    | cons d1 rest1 =>
      simp only [List.map_cons, List.cons.injEq, Prod.mk.injEq] at hkeys
      obtain ⟨⟨hid, hpw⟩, hrest⟩ := hkeys
      by_cases hd : d._id = id
      · have hdu : d = u := by simpa [findById_cons, hd] using hu
        subst hdu
        exact ⟨d1, by simp [findById_cons, hid, hd], hpw⟩
      · have hrest2 : findById rest id = some u := by simpa [findById_cons, hd] using hu
        obtain ⟨u1, h1, h2⟩ := ih hrest hrest2
        exact ⟨u1, by simp [findById_cons, hid, hd, h1], h2⟩

/-- C16: the pre-save hook hashes the password exactly when the path is
modified and returns the document as it is otherwise; hence the save inside
`generateAccessAndRefereshTokens`, and with it `loginUser` and
`refreshAccessToken`, and `logoutUser` leave the id and the stored password of
every record as they were, and a password that compared equal to the hash of a
record still does afterwards. -/
theorem hash_only_when_modified [CaseMapping] (env : Env) (nowMs salt : Nat) (db : Store) :
    (∀ (stored doc : User),
      (isModifiedPassword stored doc = false → preSave stored doc salt = doc) ∧
      (isModifiedPassword stored doc = true →
        preSave stored doc salt = { doc with password := bcryptHash doc.password salt })) ∧
    (∀ (id : ObjectId),
      (generateAccessAndRefereshTokens env nowMs salt db id).2.map
          (fun d => (d._id, d.password))
        = db.map (fun d => (d._id, d.password))) ∧
    (∀ (body : LoginBody),
      (loginUser env nowMs salt db body).2.map (fun d => (d._id, d.password))
        = db.map (fun d => (d._id, d.password))) ∧
    (∀ (req : RefreshRequest),
      (refreshAccessToken env nowMs salt db req).2.map (fun d => (d._id, d.password))
        = db.map (fun d => (d._id, d.password))) ∧
    (∀ (reqUser : UserView),
      (logoutUser nowMs db reqUser).2.map (fun d => (d._id, d.password))
        = db.map (fun d => (d._id, d.password))) ∧
    (∀ (id : ObjectId) (u : User) (pw : String),
      findById db id = some u → bcryptCompare pw u.password = true →
      ∀ (body : LoginBody) (req : RefreshRequest) (reqUser : UserView),
        (∃ u1, findById (loginUser env nowMs salt db body).2 id = some u1 ∧
          u1.password = u.password ∧ bcryptCompare pw u1.password = true) ∧
        (∃ u1, findById (refreshAccessToken env nowMs salt db req).2 id = some u1 ∧
          u1.password = u.password ∧ bcryptCompare pw u1.password = true) ∧
        (∃ u1, findById (logoutUser nowMs db reqUser).2 id = some u1 ∧
          u1.password = u.password ∧ bcryptCompare pw u1.password = true)) := by
  have hlogin : ∀ (body : LoginBody),
      (loginUser env nowMs salt db body).2.map (fun d => (d._id, d.password))
        = db.map (fun d => (d._id, d.password)) := by
    intro body
    rcases login_store env nowMs salt db body with h | ⟨id, h⟩
    · rw [h]
    · rw [h]; exact generate_keeps env nowMs salt db id
  have hrefresh : ∀ (req : RefreshRequest),
      (refreshAccessToken env nowMs salt db req).2.map (fun d => (d._id, d.password))
        = db.map (fun d => (d._id, d.password)) := by
    intro req
    rcases refresh_store env nowMs salt db req with h | ⟨id, h⟩
    · rw [h]
    · rw [h]; exact generate_keeps env nowMs salt db id
  have hlogout : ∀ (reqUser : UserView),
      (logoutUser nowMs db reqUser).2.map (fun d => (d._id, d.password))
        = db.map (fun d => (d._id, d.password)) :=
    fun reqUser => updateFirst_map_of_all db reqUser._id _ _ (fun _ => rfl)
  refine ⟨?_, generate_keeps env nowMs salt db, hlogin, hrefresh, hlogout, ?_⟩
  · intro stored doc
    constructor
    · intro h; simp [preSave, h]
    · intro h; simp [preSave, h]
  · intro id u pw hu hcmp body req reqUser
    refine ⟨?_, ?_, ?_⟩
    · obtain ⟨u1, h1, h2⟩ := findById_of_keys (hlogin body) hu
      exact ⟨u1, h1, h2, by rw [h2]; exact hcmp⟩
    · obtain ⟨u1, h1, h2⟩ := findById_of_keys (hrefresh req) hu
      exact ⟨u1, h1, h2, by rw [h2]; exact hcmp⟩
    · obtain ⟨u1, h1, h2⟩ := findById_of_keys (hlogout reqUser) hu
      exact ⟨u1, h1, h2, by rw [h2]; exact hcmp⟩

/-- C16, witness of `hash_only_when_modified`: the hook on a document of alice
whose `refreshToken` alone was assigned, and her password after her login, her
refresh and her logout. -/
theorem hash_only_when_modified_witness :
    preSave alice aliceActive 9 = aliceActive ∧
    (∃ u1, findById (loginUser sampleEnv 7400 9 aliceLoggedIn aliceLogin).2 1 = some u1 ∧
      u1.password = aliceActive.password ∧ bcryptCompare "secret1" u1.password = true) ∧
    (∃ u1, findById (refreshAccessToken sampleEnv 7400 9 aliceLoggedIn
        (cookieRefresh sessionToken)).2 1 = some u1 ∧
      u1.password = aliceActive.password ∧ bcryptCompare "secret1" u1.password = true) ∧
    (∃ u1, findById (logoutUser 7400 aliceLoggedIn (selectPublic aliceActive)).2 1 = some u1 ∧
      u1.password = aliceActive.password ∧ bcryptCompare "secret1" u1.password = true) :=
  ⟨((hash_only_when_modified sampleEnv 7400 9 aliceLoggedIn).1 alice aliceActive).1 rfl,
   (hash_only_when_modified sampleEnv 7400 9 aliceLoggedIn).2.2.2.2.2 1 aliceActive "secret1"
      rfl rfl aliceLogin (cookieRefresh sessionToken) (selectPublic aliceActive)⟩

/-! ## Letter case and white space -/

theorem capital_cases (c : Char) (h : isCapital c = true) :
    ∃ n, ((65 ≤ n ∧ n ≤ 90) ∨ (192 ≤ n ∧ n ≤ 222)) ∧ c = Char.ofNat n := by
  refine ⟨c.toNat, ?_, (Char.ofNat_toNat c).symm⟩
  simp only [isCapital, Bool.or_eq_true, Bool.and_eq_true, decide_eq_true_eq] at h
  rcases h with h | h
  · exact Or.inl h
  · exact Or.inr h.1

theorem lowerChar_of_capital (c : Char) (h : isCapital c = true) :
    lowerChar c = Char.ofNat (c.toNat + 32) := by
  simp [lowerChar, h]

theorem lowerChar_of_not_capital (c : Char) (h : ¬ isCapital c = true) :
    lowerChar c = c := by
  simp [lowerChar, h]

theorem jsIsWhiteSpace_lowerChar (c : Char) :
    jsIsWhiteSpace (lowerChar c) = jsIsWhiteSpace c := by
  by_cases h : isCapital c = true
  · obtain ⟨n, hn | hn, rfl⟩ := capital_cases c h
    · obtain ⟨h1, h2⟩ := hn
      interval_cases n <;> rfl
    · obtain ⟨h1, h2⟩ := hn
      interval_cases n <;> rfl
  · rw [lowerChar_of_not_capital c h]

theorem lowerChar_lowerChar (c : Char) : lowerChar (lowerChar c) = lowerChar c := by
  by_cases h : isCapital c = true
  · obtain ⟨n, hn | hn, rfl⟩ := capital_cases c h
    · obtain ⟨h1, h2⟩ := hn
      interval_cases n <;> rfl
    · obtain ⟨h1, h2⟩ := hn
      interval_cases n <;> rfl
  · rw [lowerChar_of_not_capital c h, lowerChar_of_not_capital c h]

theorem dropWhile_white_map_lowerChar (l : List Char) :
    (l.map lowerChar).dropWhile jsIsWhiteSpace
      = (l.dropWhile jsIsWhiteSpace).map lowerChar := by
  rw [List.dropWhile_map]
  have : (jsIsWhiteSpace ∘ lowerChar) = jsIsWhiteSpace :=
    funext jsIsWhiteSpace_lowerChar
  rw [this]

theorem latin1Lower_jsTrim (s : String) :
    latin1Lower (jsTrim s) = jsTrim (latin1Lower s) := by
  simp only [latin1Lower, jsTrim]
  rw [dropWhile_white_map_lowerChar, ← List.map_reverse,
    dropWhile_white_map_lowerChar, ← List.map_reverse]

theorem latin1Lower_idem (s : String) : latin1Lower (latin1Lower s) = latin1Lower s := by
  simp only [latin1Lower, List.map_map]
  congr 1
  apply List.map_congr_left
  intro c _
  exact lowerChar_lowerChar c

theorem latin1Lower_eq_empty (s : String) : latin1Lower s = "" ↔ s = "" := by
  constructor
  · intro h
    have hd : (latin1Lower s).data = [] := by rw [h]
    simp only [latin1Lower, List.map_eq_nil_iff] at hd
    exact String.ext hd
  · rintro rfl; rfl

theorem lowerChar_of_sameLetter {a b : Char} (h : sameLetter a b = true) :
    lowerChar a = lowerChar b := by
  have key : ∀ x y : Char, isCapital x = true → y.toNat = x.toNat + 32 →
      lowerChar x = lowerChar y := by
    intro x y hx hy
    have hyx : y = Char.ofNat (x.toNat + 32) := by rw [← hy, Char.ofNat_toNat]
    have hny : ¬ isCapital y = true := by
      simp only [isCapital, Bool.or_eq_true, Bool.and_eq_true, decide_eq_true_eq,
        bne_iff_ne, ne_eq] at hx ⊢
      omega
    rw [lowerChar_of_capital x hx, lowerChar_of_not_capital y hny, hyx]
  simp only [sameLetter, Bool.or_eq_true, Bool.and_eq_true, beq_iff_eq] at h
  rcases h with (h | ⟨h1, h2⟩) | ⟨h1, h2⟩
  · rw [h]
  · exact key a b h1 h2
  · exact (key b a h1 h2).symm

theorem map_lowerChar_of_sameLetters :
    ∀ (u v : List Char), sameLetters u v = true → u.map lowerChar = v.map lowerChar
  | [], [], _ => rfl
  | [], _ :: _, h => by simp [sameLetters] at h
  | _ :: _, [], h => by simp [sameLetters] at h
  | a :: u, b :: v, h => by
    simp only [sameLetters, Bool.and_eq_true] at h
    simp only [List.map_cons, lowerChar_of_sameLetter h.1,
      map_lowerChar_of_sameLetters u v h.2]

theorem latin1Lower_of_sameLetters (u v : String)
    (h : sameLetters u.data v.data = true) : latin1Lower u = latin1Lower v := by
  simp only [latin1Lower, map_lowerChar_of_sameLetters u.data v.data h]

theorem dropWhile_rdropWhile_of_fixed (p : Char → Bool) (a : List Char)
    (ha : a.dropWhile p = a) : (a.rdropWhile p).dropWhile p = a.rdropWhile p := by
  rw [List.dropWhile_eq_self_iff] at ha ⊢
  intro hl
  have hne : a.rdropWhile p ≠ [] := List.length_pos.mp hl
  have hpre : a.rdropWhile p <+: a := List.rdropWhile_prefix p a
  cases a with
  | nil => exact absurd rfl hne
  | cons x rest =>
    rcases List.prefix_cons_iff.mp hpre with h | ⟨t, ht, _⟩
    · exact absurd h hne
    · have hx := ha (by simp)
      simp only [List.get_eq_getElem, List.getElem_cons_zero] at hx
      simp only [ht, List.get_eq_getElem, List.getElem_cons_zero]
      exact hx

theorem jsTrim_idem (s : String) : jsTrim (jsTrim s) = jsTrim s := by
  have key : ∀ l : List Char,
      ((l.dropWhile jsIsWhiteSpace).reverse.dropWhile jsIsWhiteSpace).reverse
        = (l.dropWhile jsIsWhiteSpace).rdropWhile jsIsWhiteSpace := fun _ => rfl
  simp only [jsTrim, key]
  rw [dropWhile_rdropWhile_of_fixed _ _ (List.dropWhile_idempotent _ _), List.rdropWhile_idempotent]

theorem castUsername_eq [CaseMapping]
    (hcomm : ∀ s, jsToLowerCase (jsTrim s) = jsTrim (jsToLowerCase s))
    (hempty : ∀ s, jsToLowerCase s = "" ↔ s = "") (v : String) :
    castUsername v = jsTrim (jsToLowerCase v) := by
  unfold castUsername
  by_cases h : v = ""
  · subst h
    rw [(hempty "").mpr rfl]
    rfl
  · have : truthyString v = true := by simp [truthyString, h]
    rw [if_pos this, hcomm]

theorem castUsername_congr [CaseMapping]
    (hcomm : ∀ s, jsToLowerCase (jsTrim s) = jsTrim (jsToLowerCase s))
    (hempty : ∀ s, jsToLowerCase s = "" ↔ s = "")
    {u v : String} (h : jsToLowerCase u = jsToLowerCase v) :
    castUsername u = castUsername v := by
  rw [castUsername_eq hcomm hempty, castUsername_eq hcomm hempty, h]

theorem castUsername_idem [CaseMapping]
    (hcomm : ∀ s, jsToLowerCase (jsTrim s) = jsTrim (jsToLowerCase s))
    (hidem : ∀ s, jsToLowerCase (jsToLowerCase s) = jsToLowerCase s)
    (hempty : ∀ s, jsToLowerCase s = "" ↔ s = "") (v : String) :
    castUsername (castUsername v) = castUsername v := by
  rw [castUsername_eq hcomm hempty, castUsername_eq hcomm hempty, ← hcomm, jsTrim_idem,
    hcomm, hidem]

theorem castUsername_jsToLowerCase [CaseMapping]
    (hcomm : ∀ s, jsToLowerCase (jsTrim s) = jsTrim (jsToLowerCase s))
    (hidem : ∀ s, jsToLowerCase (jsToLowerCase s) = jsToLowerCase s)
    (hempty : ∀ s, jsToLowerCase s = "" ↔ s = "") (v : String) :
    castUsername (jsToLowerCase v) = castUsername v :=
  castUsername_congr hcomm hempty (hidem v)

/-! ## Registration -/

theorem register_blank [CaseMapping] {db : Store} {req : RegisterRequest}
    (cloud : String → Option String) (newId salt nowMs : Nat)
    (h : isBlank req.body.fullName = true ∨ isBlank req.body.email = true ∨
         isBlank req.body.username = true ∨ isBlank req.body.password = true) :
    registerUser cloud newId salt nowMs db req
      = (.error (.apiError 400 "All fields are required"), db) := by
  unfold registerUser
  have : [req.body.fullName, req.body.email, req.body.username, req.body.password].any isBlank
      = true := by
    rcases h with h | h | h | h <;> simp [h]
  simp [this]

theorem userCreate_ok_inv [CaseMapping] {db db1 : Store} {newId salt nowMs : Nat}
    {fullName email password : Option String} {avatar coverImage username : String}
    {user : User}
    (h : userCreate db newId salt nowMs fullName avatar coverImage email password username
      = (.ok user, db1)) :
    ∃ pw, password = some pw ∧
      user.username = castUsername username ∧ truthyString user.username = true ∧
      user.password = bcryptHash pw salt ∧ user._id = newId ∧
      (∀ d ∈ db, d._id ≠ newId) ∧
      db1 = db ++ [user] := by
  unfold userCreate at h
  split at h
  · next fn em pw =>
    simp only [] at h
    split at h
    · cases h
    · next hvalid =>
      split at h
      · cases h
      · next hdup =>
        cases h
        refine ⟨pw, rfl, rfl, ?_, rfl, rfl, ?_, rfl⟩
        · simp only [Bool.not_eq_true', Bool.not_eq_false, Bool.and_eq_true] at hvalid
          exact hvalid.1.1.1.1
        · intro d hd hid
          apply hdup
          rw [List.any_eq_true]
          exact ⟨d, hd, by simp [hid]⟩
  · cases h

theorem findById_append_new {db : Store} {rec : User} (h : ∀ d ∈ db, d._id ≠ rec._id) :
    findById (db ++ [rec]) rec._id = some rec := by
  induction db with
  | nil => simp [findById_cons]
  | cons d rest ih =>
    have hd : ¬ d._id = rec._id := h d (List.mem_cons_self _ _)
    have := ih (fun x hx => h x (List.mem_cons_of_mem _ hx))
    simp [findById_cons, hd, this]

theorem findOne_append_new [CaseMapping] {db : Store} {rec : User} {username email : Option String}
    (hnone : findOne db username email = none)
    (hrec : matchesOr username email rec = true) :
    findOne (db ++ [rec]) username email = some rec := by
  unfold findOne at hnone ⊢
  rw [List.find?_append, hnone]
  simp [List.find?_cons, hrec]

theorem register_ok_inv [CaseMapping] {cloud : String → Option String} {newId salt nowMs : Nat}
    {db db1 : Store} {req : RegisterRequest} {res : Response}
    (h : registerUser cloud newId salt nowMs db req = (.ok res, db1)) :
    ∃ name pw rec,
      req.body.username = some name ∧ req.body.password = some pw ∧
      findOne db req.body.username req.body.email = none ∧
      rec.username = castUsername (jsToLowerCase name) ∧
      truthyString rec.username = true ∧
      rec.password = bcryptHash pw salt ∧ rec._id = newId ∧
      (∀ d ∈ db, d._id ≠ newId) ∧
      db1 = db ++ [rec] := by
  unfold registerUser at h
  split at h
  · cases h
  · split at h
    · cases h
    · next hnone =>
      split at h
      · cases h
      · simp only [] at h
        split at h
        · cases h
        · split at h
          · cases h
          · split at h
            · cases h
            · next name hname =>
              split at h
              · cases h
              · next user d1 hcreate =>
                obtain ⟨pw, hpw, hu, htr, hp, hid, hfresh, hdb⟩ := userCreate_ok_inv hcreate
                split at h
                · cases h
                · cases h
                  exact ⟨name, pw, user, hname, hpw, hnone, hu, htr, hp, hid, hfresh, hdb⟩

/-- C14 fails on the code: a registration whose body has no username passes
the check of the fields, since `undefined?.trim()` is not the empty string, and
ends in the plain error of `username.toLowerCase()`; one with no password ends
in the validation error of `User.create`.  Neither error has a status code,
and neither is the 400 that a blank field gets. -/
theorem register_absent_field_not_400 :
    registerUser sampleCloud 3 11 9000 [alice, bob] registrationNoUsername
      = (.error (.error "Cannot read properties of undefined (reading 'toLowerCase')"),
         [alice, bob]) ∧
    registerUser sampleCloud 3 11 9000 [alice, bob] registrationNoPassword
      = (.error (.error "User validation failed: password: Password is required"),
         [alice, bob]) ∧
    (Thrown.error "User validation failed: password: Password is required").statusCode
      = none ∧
    registerUser sampleCloud 3 11 9000 [alice, bob] registrationBlankName
      = (.error (.apiError 400 "All fields are required"), [alice, bob]) := by
  refine ⟨?_, ?_, ?_, ?_⟩ <;> rfl

/-! ## Letter case of the username at login -/

theorem matchesOr_congr [CaseMapping]
    (hcomm : ∀ s, jsToLowerCase (jsTrim s) = jsTrim (jsToLowerCase s))
    (hempty : ∀ s, jsToLowerCase s = "" ↔ s = "")
    {u v : String} (h : jsToLowerCase u = jsToLowerCase v)
    (email : Option String) : matchesOr (some u) email = matchesOr (some v) email := by
  funext d
  simp [matchesOr, castUsername_congr hcomm hempty h]

theorem truthyString_congr [CaseMapping]
    (hempty : ∀ s, jsToLowerCase s = "" ↔ s = "")
    {u v : String} (h : jsToLowerCase u = jsToLowerCase v) :
    truthyString u = truthyString v := by
  have h1 : u = "" ↔ v = "" := by
    rw [← hempty u, h, hempty v]
  by_cases hv : v = ""
  · rw [hv, h1.mpr hv]
  · have hu : u ≠ "" := fun hh => hv (h1.mp hh)
    rw [truthyString_eq_true.mpr hu, truthyString_eq_true.mpr hv]

theorem login_congr_username [CaseMapping]
    (hcomm : ∀ s, jsToLowerCase (jsTrim s) = jsTrim (jsToLowerCase s))
    (hempty : ∀ s, jsToLowerCase s = "" ↔ s = "")
    (env : Env) (nowMs salt : Nat) (db : Store) (body : LoginBody)
    {u v : String} (h : jsToLowerCase u = jsToLowerCase v) :
    loginUser env nowMs salt db { body with username := some u }
      = loginUser env nowMs salt db { body with username := some v } := by
  unfold loginUser
  simp only [findOne, matchesOr_congr hcomm hempty h, truthyOpt, truthyString_congr hempty h]

/-- C13: the filter of the lookup is cast with the setters of the schema, so a
login depends on the username only through its lower-cased form.  The case
mapping is the one of the engine, whatever it is, of which four facts are
used: it commutes with `trim`, it is idempotent, it maps only the empty text
to the empty text, and it maps two texts that differ only in the case of
letters of Basic Latin and Latin-1 to the same text.  Then: with a username
`u'` that the engine lower-cases to what it lower-cases `u` to, and so with
any `u'` that differs from `u` only in the case of such letters, `loginUser`
returns exactly what it returns with `u`.  And a record that `registerUser`
created is stored with its username lower-cased and trimmed; right after the
registration, a login with any `u'` that differs from the stored username only
in letter case, and with the registered password, finds that record and
answers 200 with an access token that carries its id. -/
theorem login_ignores_letter_case [CaseMapping]
    (hcomm : ∀ s, jsToLowerCase (jsTrim s) = jsTrim (jsToLowerCase s))
    (hidem : ∀ s, jsToLowerCase (jsToLowerCase s) = jsToLowerCase s)
    (hempty : ∀ s, jsToLowerCase s = "" ↔ s = "")
    (hletters : ∀ u v, sameLetters u.data v.data = true →
      jsToLowerCase u = jsToLowerCase v)
    (env : Env) (nowMs salt : Nat) (db : Store) :
    (∀ (body : LoginBody) (u u' : String),
      jsToLowerCase u' = jsToLowerCase u ∨ sameLetters u'.data u.data = true →
      loginUser env nowMs salt db { body with username := some u' }
        = loginUser env nowMs salt db { body with username := some u }) ∧
    (∀ (cloud : String → Option String) (newId salt0 now0 : Nat) (db0 : Store)
        (req : RegisterRequest) (res : Response),
      registerUser cloud newId salt0 now0 db0 req = (.ok res, db) →
      ∃ (name pw : String) (rec : User),
        req.body.username = some name ∧ req.body.password = some pw ∧
        findById db newId = some rec ∧
        rec.username = jsTrim (jsToLowerCase name) ∧
        ∀ (u' : String),
          jsToLowerCase u' = jsToLowerCase rec.username ∨
            sameLetters u'.data rec.username.data = true →
          findOne db (some u') none = some rec ∧
          (env.ACCESS_TOKEN_SECRET ≠ "" → env.REFRESH_TOKEN_SECRET ≠ "" →
            ∃ (res2 : Response) (db2 : Store) (p : Payload) (acc : Token)
                (view : Option UserView) (ref : Option Token),
              loginUser env nowMs salt db
                  { email := none, username := some u', password := some pw }
                = (.ok res2, db2) ∧
              res2.status = 200 ∧
              res2.json.data = .session view (some acc) ref ∧
              acc = .jwt p env.ACCESS_TOKEN_SECRET ∧ p._id = rec._id)) := by
  have hvariant : ∀ u' u : String,
      jsToLowerCase u' = jsToLowerCase u ∨ sameLetters u'.data u.data = true →
      jsToLowerCase u' = jsToLowerCase u := fun u' u h => h.elim id (hletters u' u)
  refine ⟨fun body u u' h =>
    login_congr_username hcomm hempty env nowMs salt db body (hvariant u' u h), ?_⟩
  intro cloud newId salt0 now0 db0 req res hreg
  obtain ⟨name, pw, rec, hname, hpw, hnone, huser, htruthy, hpass, hid, hfresh, hdb⟩ :=
    register_ok_inv hreg
  have hstored : rec.username = castUsername name := by
    rw [huser, castUsername_jsToLowerCase hcomm hidem hempty]
  have hfixed : castUsername rec.username = rec.username := by
    rw [hstored, castUsername_idem hcomm hidem hempty]
  have hfindId : findById db newId = some rec := by
    rw [hdb, ← hid]
    exact findById_append_new (fun d hd => by rw [hid]; exact hfresh d hd)
  refine ⟨name, pw, rec, hname, hpw, hfindId, ?_, ?_⟩
  · rw [hstored, castUsername_eq hcomm hempty]
  intro u' hvar
  have hu' : jsToLowerCase u' = jsToLowerCase rec.username := hvariant u' rec.username hvar
  have hcast : castUsername u' = rec.username := by
    rw [castUsername_congr hcomm hempty hu', hfixed]
  have hmatch : matchesOr (some u') none rec = true := by
    simp [matchesOr, hcast]
  have hearlier : findOne db0 (some u') none = none := by
    unfold findOne
    rw [List.find?_eq_none]
    intro d hd
    have hd0 := List.find?_eq_none.mp hnone d hd
    rw [hname] at hd0
    have hne : ¬ castUsername name = d.username := by
      intro hh
      apply hd0
      simp [matchesOr, hh]
    simp only [matchesOr, hcast, hstored, Bool.or_false, beq_iff_eq]
    simpa using hne
  have hfind : findOne db (some u') none = some rec := by
    rw [hdb]; exact findOne_append_new hearlier hmatch
  refine ⟨hfind, ?_⟩
  intro hA hR
  have hu'truthy : truthyString u' = true := by
    rw [truthyString_congr hempty hu']; exact htruthy
  have hcmp : bcryptCompare pw rec.password = true := by
    rw [hpass]; exact bcryptCompare_self pw salt0
  obtain ⟨u0, acc, ref, hu0, hacc, _, hlogin⟩ :=
    @login_accept _ env db { email := none, username := some u', password := some pw } rec pw
      nowMs salt (Or.inl hu'truthy) hfind rfl hcmp hA hR
  obtain ⟨_, hjwt⟩ := jwtSign_inv hacc
  exact ⟨_, _, _, acc, _, _, hlogin, rfl, rfl, hjwt, findById_id hu0⟩

/-- The setter `trim` of the schema and the test of `registerUser` strip all
the white space of `String.prototype.trim`: alice logs in under her username
between a no-break space and a form feed, and a registration whose full name
is a form feed is refused with 400. -/
theorem login_ignores_surrounding_white_space :
    loginUser sampleEnv 5000 7 [alice]
        { email := none, username := some alicePadded, password := some "secret1" }
      = loginUser sampleEnv 5000 7 [alice] aliceLogin ∧
    (loginUser sampleEnv 5000 7 [alice] aliceLogin).1.toOption.map Response.status
      = some 200 ∧
    registerUser sampleCloud 3 11 9000 [alice, bob] registrationFormFeedName
      = (.error (.apiError 400 "All fields are required"), [alice, bob]) := by
  refine ⟨?_, ?_, ?_⟩ <;> rfl

/-- C13, witness of `login_ignores_letter_case`, with the case mapping of
Latin-1, which has the four facts: alice logs in as `ALICE`, eric, whose
username is `éric`, as `ÉRIC`, and carol, registered as `Carol`, is found as
`CAROL`. -/
theorem login_ignores_letter_case_witness :
    (∀ s, latin1Lower (jsTrim s) = jsTrim (latin1Lower s)) ∧
    (∀ s, latin1Lower (latin1Lower s) = latin1Lower s) ∧
    (∀ s, latin1Lower s = "" ↔ s = "") ∧
    (∀ u v, sameLetters u.data v.data = true → latin1Lower u = latin1Lower v) ∧
    sameLetters "ALICE".data "alice".data = true ∧
    sameLetters "ALICE".data "alicf".data = false ∧
    loginUser sampleEnv 5000 7 [alice]
        { email := none, username := some "ALICE", password := some "secret1" }
      = loginUser sampleEnv 5000 7 [alice] aliceLogin ∧
    (loginUser sampleEnv 5000 7 [alice] aliceLogin).1.toOption.map Response.status
      = some 200 ∧
    sameLetters ericCapitals.data ericName.data = true ∧
    loginUser sampleEnv 7000 7 [alice, eric]
        { email := none, username := some ericCapitals, password := some "secret6" }
      = loginUser sampleEnv 7000 7 [alice, eric]
        { email := none, username := some ericName, password := some "secret6" } ∧
    (loginUser sampleEnv 7000 7 [alice, eric]
        { email := none, username := some ericName, password := some "secret6"
          }).1.toOption.map Response.status = some 200 ∧
    ∃ (name pw : String) (rec : User),
      carolRegistration.body.username = some name ∧
      carolRegistration.body.password = some pw ∧
      findById (registerUser sampleCloud 3 11 9000 [alice, bob] carolRegistration).2 3
        = some rec ∧
      rec.username = jsTrim (latin1Lower name) ∧
      ∀ (u' : String),
        latin1Lower u' = latin1Lower rec.username ∨
          sameLetters u'.data rec.username.data = true →
        findOne (registerUser sampleCloud 3 11 9000 [alice, bob] carolRegistration).2
            (some u') none = some rec ∧
        (sampleEnv.ACCESS_TOKEN_SECRET ≠ "" → sampleEnv.REFRESH_TOKEN_SECRET ≠ "" →
          ∃ (res2 : Response) (db2 : Store) (p : Payload) (acc : Token)
              (view : Option UserView) (ref : Option Token),
            loginUser sampleEnv 9500 7
                (registerUser sampleCloud 3 11 9000 [alice, bob] carolRegistration).2
                { email := none, username := some u', password := some pw }
              = (.ok res2, db2) ∧
            res2.status = 200 ∧
            res2.json.data = .session view (some acc) ref ∧
            acc = .jwt p sampleEnv.ACCESS_TOKEN_SECRET ∧ p._id = rec._id) :=
  ⟨latin1Lower_jsTrim, latin1Lower_idem, latin1Lower_eq_empty, latin1Lower_of_sameLetters,
   by decide, by decide,
   (login_ignores_letter_case latin1Lower_jsTrim latin1Lower_idem latin1Lower_eq_empty
      latin1Lower_of_sameLetters sampleEnv 5000 7 [alice]).1
      aliceLogin "alice" "ALICE" (Or.inr (by decide)),
   rfl,
   by decide,
   (login_ignores_letter_case latin1Lower_jsTrim latin1Lower_idem latin1Lower_eq_empty
      latin1Lower_of_sameLetters sampleEnv 7000 7 [alice, eric]).1
      { email := none, username := none, password := some "secret6" }
      ericName ericCapitals (Or.inr (by decide)),
   rfl,
   (login_ignores_letter_case latin1Lower_jsTrim latin1Lower_idem latin1Lower_eq_empty
      latin1Lower_of_sameLetters sampleEnv 9500 7
      (registerUser sampleCloud 3 11 9000 [alice, bob] carolRegistration).2).2
      sampleCloud 3 11 9000 [alice, bob] carolRegistration _ rfl⟩

end Backend
